import Mathlib

/-!
# Verification of the hand-gesture keyboard signal pipeline

Shallow embedding of the stateful core of the repository
(`backend/ema_filter.py`, `backend/gesture_recognizer.py`,
`backend/hand_tracker.py`) and proofs about it.

Embedding conventions:
* Python floats are modelled as `ℚ` (exact arithmetic; the claims under
  study are order/affine properties, not rounding properties).
* Euclidean distances appear in the source only (a) in comparisons
  against thresholds and (b) as a reported `distance` value.  The
  embedding works with *squared* distances: `d < c` for nonnegative
  `d, c` is embedded as `d² < c²` (an exact equivalence, proved in
  `sqrt_lt_mul_sqrt_iff` below), and the reported value holds the
  squared distance.
* `time.time()` is modelled by an ambient clock stream `clk : ℕ → ℚ`
  together with a call counter threaded through the functions: the
  n-th call of a cycle reads `clk n`.  Each embedded function consumes
  exactly one clock tick where the source calls `time.time()` once.
* Python `dict` lookups that can raise `KeyError`, `list`/array indexing
  that can raise `IndexError`, and numpy shape mismatches that raise
  `ValueError` are modelled with `Except String`.  Where the source
  mutates state before raising, the embedding returns the mutated state
  alongside the error, so the exceptional control flow is observable.
* Numpy arrays are `List Point`.  `MultiPointEMAFilter.update` returns
  the very array object it stores (`return self.ema_values`); the
  caller in `HandTracker.process_frame` mutates that array in place
  (`landmarks[:, :2] += self.calibration_offset`), which therefore also
  mutates the filter's stored state.  The embedding of `process_frame`
  reproduces this aliasing explicitly by writing the offset result back
  into the filter slot.
-/

/-- One landmark: a 3-D point (x, y, z), coordinates as rationals. -/
structure Point where
  x : ℚ
  y : ℚ
  z : ℚ
deriving DecidableEq, Repr

/-- Squared 3-D Euclidean distance (used by `_is_finger_folded`,
where the source computes `np.linalg.norm(p1 - p2)` on full rows). -/
def dist2 (p q : Point) : ℚ :=
  (p.x - q.x) ^ 2 + (p.y - q.y) ^ 2 + (p.z - q.z) ^ 2

/-- Squared 2-D Euclidean distance (used where the source slices `[:2]`:
pinch distance and dwell anchor distance). -/
def dist2xy (a b : ℚ × ℚ) : ℚ :=
  (a.1 - b.1) ^ 2 + (a.2 - b.2) ^ 2

/-- Python's two-argument `min` (kernel-computable on `ℚ`, unlike the
`Min ℚ` instance; `pymin_eq_min` below identifies it with `min`). -/
def pymin (a b : ℚ) : ℚ := if a ≤ b then a else b

theorem pymin_eq_min (a b : ℚ) : pymin a b = min a b := (min_def a b).symm

/-- Safe list indexing, modelling Python indexing that raises
`IndexError` when out of range. -/
def nth (l : List Point) (i : ℕ) : Except String Point :=
  match l.get? i with
  | some p => .ok p
  | none => .error "IndexError"

/-- Bridge between the squared-distance embedding and the source's
comparisons on real Euclidean distances: for nonnegative squared
distances `d, m`, the source test `√d < c·√m` (with `c > 0`) is the
embedded test `d < c²·m`. -/
theorem sqrt_lt_mul_sqrt_iff (d m c : ℝ) (hd : 0 ≤ d) (hc : 0 < c) :
    Real.sqrt d < c * Real.sqrt m ↔ d < c ^ 2 * m := by
  rw [show c * Real.sqrt m = Real.sqrt (c ^ 2 * m) by
        rw [Real.sqrt_mul (by positivity), Real.sqrt_sq hc.le]]
  rw [Real.sqrt_lt_sqrt_iff hd]

/-! ## `ema_filter.py` — `MultiPointEMAFilter`

The filter state is `ema_values : Option (List Point)` (`None` =
uninitialized) plus the fixed `alpha`; `num_points` is stored by the
constructor but never consulted by `update`. -/

/-- One smoothing step on one point:
`alpha * raw + (1 - alpha) * prev`, per coordinate
(`ema_filter.py` line 82, numpy elementwise arithmetic). -/
def blendPoint (alpha : ℚ) (raw prev : Point) : Point :=
  ⟨alpha * raw.x + (1 - alpha) * prev.x,
   alpha * raw.y + (1 - alpha) * prev.y,
   alpha * raw.z + (1 - alpha) * prev.z⟩

namespace MultiPointEMAFilter

/-- `MultiPointEMAFilter.update` (`ema_filter.py` lines 69–84).
Fresh state: stores a copy of the input and returns it (no shape
check of any kind).  Otherwise the numpy elementwise expression
requires matching shapes; a mismatch raises `ValueError` before the
assignment, leaving the state unchanged.  (Numpy would silently
broadcast a length-1 input; that corner is not modelled, no claim
touches it.)  Returns (returned array, new state). -/
def update (alpha : ℚ) (ema_values : Option (List Point)) (landmarks : List Point) :
    Except String (List Point × Option (List Point)) :=
  match ema_values with
  | none => .ok (landmarks, some landmarks)
  | some prev =>
      if landmarks.length = prev.length then
        let v := List.zipWith (blendPoint alpha) landmarks prev
        .ok (v, some v)
      else
        .error "ValueError"

/-- `MultiPointEMAFilter.reset` (`ema_filter.py` lines 86–88). -/
def reset (_ema_values : Option (List Point)) : Option (List Point) := none

end MultiPointEMAFilter

/-! ## `gesture_recognizer.py` — `GestureRecognizer` -/

/-- Configuration fixed at construction (`__init__`, lines 32–46).
Thresholds/radii are stored as given; the embedded comparisons square
them (see the header). -/
structure Config where
  pinch_threshold : ℚ
  pinch_hold_time : ℚ
  fist_threshold : ℚ
  fist_hold_time : ℚ
  dwell_time : ℚ
  dwell_radius : ℚ
deriving DecidableEq, Repr

/-- The constructor defaults: pinch_threshold 0.05, pinch_hold_time 0.1,
fist_threshold 0.08, fist_hold_time 0.5, dwell_time 0.8,
dwell_radius 0.03. -/
def default_config : Config :=
  ⟨1/20, 1/10, 2/25, 1/2, 4/5, 3/100⟩

/-- The five finger names keying the per-finger dictionaries. -/
inductive Finger
  | thumb | index | middle | ring | pinky
deriving DecidableEq, Repr

/-- `_init_finger_state` (lines 68–75). -/
structure FingerState where
  dwell_start_time : Option ℚ
  dwell_position : Option (ℚ × ℚ)
  pinch_start_time : Option ℚ
  was_pinching : Bool
deriving DecidableEq, Repr

def init_finger_state : FingerState := ⟨none, none, none, false⟩

/-- The `'fingers'` dictionary: one `FingerState` per finger name. -/
structure FingersState where
  thumb : FingerState
  index : FingerState
  middle : FingerState
  ring : FingerState
  pinky : FingerState
deriving DecidableEq, Repr

def getFinger (fs : FingersState) : Finger → FingerState
  | .thumb => fs.thumb
  | .index => fs.index
  | .middle => fs.middle
  | .ring => fs.ring
  | .pinky => fs.pinky

def setFinger (fs : FingersState) : Finger → FingerState → FingersState
  | .thumb, s => {fs with thumb := s}
  | .index, s => {fs with index := s}
  | .middle, s => {fs with middle := s}
  | .ring, s => {fs with ring := s}
  | .pinky, s => {fs with pinky := s}

/-- `_init_hand_state` (lines 54–66). -/
structure HandState where
  fingers : FingersState
  fist_start_time : Option ℚ
  was_fist : Bool
deriving DecidableEq, Repr

def init_hand_state : HandState :=
  ⟨⟨init_finger_state, init_finger_state, init_finger_state,
    init_finger_state, init_finger_state⟩, none, false⟩

/-- `self.states`: the dictionary with exactly the keys `'Left'` and
`'Right'` (lines 49–52); looking up any other label raises `KeyError`. -/
structure States where
  left : HandState
  right : HandState
deriving DecidableEq, Repr

def init_states : States := ⟨init_hand_state, init_hand_state⟩

def getHand (st : States) (label : String) : Except String HandState :=
  if label = "Left" then .ok st.left
  else if label = "Right" then .ok st.right
  else .error "KeyError"

/-- Writing a slot back; only reached after a successful `getHand`,
so the unknown-label case is inert. -/
def setHand (st : States) (label : String) (hs : HandState) : States :=
  if label = "Left" then {st with left := hs}
  else if label = "Right" then {st with right := hs}
  else st

/-- Pinch result dictionary.  `distance` is `none` exactly when the
source omits the `'distance'` key (the thumb early return, lines
94–95); otherwise it holds the squared 2-D thumb-to-tip distance. -/
structure PinchResult where
  is_pinching : Bool
  pinch_triggered : Bool
  distance : Option ℚ
deriving DecidableEq, Repr

structure FistResult where
  is_fist : Bool
  fist_triggered : Bool
deriving DecidableEq, Repr

structure DwellResult where
  dwell_progress : ℚ
  dwell_triggered : Bool
deriving DecidableEq, Repr

/-- MediaPipe landmark indices (class constants, lines 18–30). -/
def WRIST : ℕ := 0
def THUMB_TIP : ℕ := 4
def INDEX_TIP : ℕ := 8
def MIDDLE_TIP : ℕ := 12
def RING_TIP : ℕ := 16
def PINKY_TIP : ℕ := 20
def INDEX_MCP : ℕ := 5
def MIDDLE_MCP : ℕ := 9
def RING_MCP : ℕ := 13
def PINKY_MCP : ℕ := 17

/-- `_is_finger_folded` (lines 81–90): the source tests
`tip_to_wrist < mcp_to_wrist * 1.1` on 3-D Euclidean distances;
squared (exactly equivalent by `sqrt_lt_mul_sqrt_iff` with c = 11/10):
`100·dist2(tip,wrist) < 121·dist2(mcp,wrist)`. -/
def is_finger_folded (landmarks : List Point) (tip_idx mcp_idx : ℕ) :
    Except String Bool := do
  let tip ← nth landmarks tip_idx
  let mcp ← nth landmarks mcp_idx
  let wrist ← nth landmarks WRIST
  pure (decide (100 * dist2 tip wrist < 121 * dist2 mcp wrist))

/-- `detect_pinch` (lines 92–122).  For the thumb it returns
`{'is_pinching': False, 'pinch_triggered': False}` — no `'distance'`
key and no `time.time()` call — before touching any state.  Otherwise:
state lookup (KeyError possible), landmark indexing (IndexError
possible), squared 2-D threshold test, one clock tick, then the
hold/latch update. -/
def detect_pinch (cfg : Config) (st : States) (landmarks : List Point)
    (label : String) (finger_name : Finger) (tip_idx : ℕ)
    (clk : ℕ → ℚ) (t : ℕ) : States × ℕ × Except String PinchResult :=
  if finger_name = .thumb then
    (st, t, .ok ⟨false, false, none⟩)
  else
    match getHand st label with
    | .error e => (st, t, .error e)
    | .ok hs =>
      match nth landmarks THUMB_TIP with
      | .error e => (st, t, .error e)
      | .ok thumb_tip =>
        match nth landmarks tip_idx with
        | .error e => (st, t, .error e)
        | .ok finger_tip =>
          let d2 := dist2xy (thumb_tip.x, thumb_tip.y) (finger_tip.x, finger_tip.y)
          let is_pinching := decide (d2 < cfg.pinch_threshold ^ 2)
          let current_time := clk t
          let fs := getFinger hs.fingers finger_name
          let out :=
            if is_pinching then
              match fs.pinch_start_time with
              | none => ({fs with pinch_start_time := some current_time}, false)
              | some t0 =>
                if cfg.pinch_hold_time ≤ current_time - t0 then
                  if fs.was_pinching then (fs, false)
                  else ({fs with was_pinching := true}, true)
                else (fs, false)
            else
              ({fs with pinch_start_time := none, was_pinching := false}, false)
          (setHand st label {hs with fingers := setFinger hs.fingers finger_name out.1},
           t + 1, .ok ⟨is_pinching, out.2, some d2⟩)

/-- `detect_fist` (lines 124–153): state lookup, four fold tests
(indexing can raise before any state change), `is_fist` = all four
folded, one clock tick, then the same hold/latch pattern on the
per-hand fields, governed by `fist_hold_time`.  `fist_threshold` is
never read. -/
def detect_fist (cfg : Config) (st : States) (landmarks : List Point)
    (label : String) (clk : ℕ → ℚ) (t : ℕ) :
    States × ℕ × Except String FistResult :=
  match getHand st label with
  | .error e => (st, t, .error e)
  | .ok hs =>
    match is_finger_folded landmarks INDEX_TIP INDEX_MCP,
          is_finger_folded landmarks MIDDLE_TIP MIDDLE_MCP,
          is_finger_folded landmarks RING_TIP RING_MCP,
          is_finger_folded landmarks PINKY_TIP PINKY_MCP with
    | .error e, _, _, _ => (st, t, .error e)
    | _, .error e, _, _ => (st, t, .error e)
    | _, _, .error e, _ => (st, t, .error e)
    | _, _, _, .error e => (st, t, .error e)
    | .ok f1, .ok f2, .ok f3, .ok f4 =>
      let is_fist := f1 && f2 && f3 && f4
      let current_time := clk t
      let out :=
        if is_fist then
          match hs.fist_start_time with
          | none => ({hs with fist_start_time := some current_time}, false)
          | some t0 =>
            if cfg.fist_hold_time ≤ current_time - t0 then
              if hs.was_fist then (hs, false)
              else ({hs with was_fist := true}, true)
            else (hs, false)
        else
          ({hs with fist_start_time := none, was_fist := false}, false)
      (setHand st label out.1, t + 1, .ok ⟨is_fist, out.2⟩)

/-- `detect_dwell` (lines 155–186).  The state lookup (line 157,
KeyError possible) precedes the clock read (line 158).  The squared
anchor-distance test embeds `distance > dwell_radius`.  A `None`
`dwell_start_time` alongside a set anchor would make the source
compute `now - None` (TypeError); reachable states always set the
two fields together, so that arm is never taken. -/
def detect_dwell (cfg : Config) (st : States) (tip_pos : Point)
    (label : String) (finger_name : Finger) (clk : ℕ → ℚ) (t : ℕ) :
    States × ℕ × Except String DwellResult :=
  match getHand st label with
  | .error e => (st, t, .error e)
  | .ok hs =>
    let current_time := clk t
    let fs := getFinger hs.fingers finger_name
    match fs.dwell_position with
    | none =>
      let fs1 := {fs with dwell_position := some (tip_pos.x, tip_pos.y),
                          dwell_start_time := some current_time}
      (setHand st label {hs with fingers := setFinger hs.fingers finger_name fs1},
       t + 1, .ok ⟨0, false⟩)
    | some anchor =>
      if cfg.dwell_radius ^ 2 < dist2xy anchor (tip_pos.x, tip_pos.y) then
        let fs1 := {fs with dwell_position := some (tip_pos.x, tip_pos.y),
                            dwell_start_time := some current_time}
        (setHand st label {hs with fingers := setFinger hs.fingers finger_name fs1},
         t + 1, .ok ⟨0, false⟩)
      else
        match fs.dwell_start_time with
        | none => (st, t, .error "TypeError")
        | some s0 =>
          let elapsed := current_time - s0
          let progress := pymin (elapsed / cfg.dwell_time) 1
          if 1 ≤ progress then
            let fs1 := {fs with dwell_start_time := some current_time}
            (setHand st label {hs with fingers := setFinger hs.fingers finger_name fs1},
             t + 1, .ok ⟨progress, true⟩)
          else
            (st, t + 1, .ok ⟨progress, false⟩)

/-- Per-finger entry of the result (`recognize`, lines 213–217). -/
structure FingerOut where
  pointer : ℚ × ℚ
  dwell : DwellResult
  pinch : PinchResult
deriving DecidableEq, Repr

structure FingersOut where
  thumb : FingerOut
  index : FingerOut
  middle : FingerOut
  ring : FingerOut
  pinky : FingerOut
deriving DecidableEq, Repr

/-- One per-hand record of the result list (lines 219–223). -/
structure HandResult where
  label : String
  fingers : FingersOut
  fist : FistResult
deriving DecidableEq, Repr

/-- One hand observation as delivered to `recognize`:
`{'landmarks': ..., 'label': ...}`. -/
structure Obs where
  label : String
  landmarks : List Point
deriving DecidableEq, Repr

/-- Sequencing for the state-and-clock-threading detectors: on error
the state mutated so far is kept (Python state mutations before an
exception persist) and the error propagates. -/
def andThen {α β : Type} (r : States × ℕ × Except String α)
    (k : α → States → ℕ → States × ℕ × Except String β) :
    States × ℕ × Except String β :=
  match r with
  | (st, t, .error e) => (st, t, .error e)
  | (st, t, .ok a) => k a st t

/-- One iteration of the per-finger loop in `recognize` (lines
211–217): extract the tip (IndexError possible), run dwell, then
pinch, and assemble the finger's record. -/
def run_finger (cfg : Config) (landmarks : List Point) (label : String)
    (finger_name : Finger) (tip_idx : ℕ) (st : States) (clk : ℕ → ℚ) (t : ℕ) :
    States × ℕ × Except String FingerOut :=
  match nth landmarks tip_idx with
  | .error e => (st, t, .error e)
  | .ok tip_pos =>
    andThen (detect_dwell cfg st tip_pos label finger_name clk t) fun dw st1 t1 =>
    andThen (detect_pinch cfg st1 landmarks label finger_name tip_idx clk t1) fun pn st2 t2 =>
    (st2, t2, .ok ⟨(tip_pos.x, tip_pos.y), dw, pn⟩)

/-- Processing of one present hand in `recognize` (lines 206–223):
the five fingers in `finger_map` order, then `detect_fist`. -/
def recognize_hand (cfg : Config) (hand : Obs) (st : States)
    (clk : ℕ → ℚ) (t : ℕ) : States × ℕ × Except String HandResult :=
  andThen (run_finger cfg hand.landmarks hand.label .thumb THUMB_TIP st clk t) fun o1 st1 t1 =>
  andThen (run_finger cfg hand.landmarks hand.label .index INDEX_TIP st1 clk t1) fun o2 st2 t2 =>
  andThen (run_finger cfg hand.landmarks hand.label .middle MIDDLE_TIP st2 clk t2) fun o3 st3 t3 =>
  andThen (run_finger cfg hand.landmarks hand.label .ring RING_TIP st3 clk t3) fun o4 st4 t4 =>
  andThen (run_finger cfg hand.landmarks hand.label .pinky PINKY_TIP st4 clk t4) fun o5 st5 t5 =>
  andThen (detect_fist cfg st5 hand.landmarks hand.label clk t5) fun fi st6 t6 =>
  (st6, t6, .ok ⟨hand.label, ⟨o1, o2, o3, o4, o5⟩, fi⟩)

/-- The reset loop of `recognize` (lines 193–196): every label of the
two dictionary keys without a matching observation this cycle has its
slot reinitialized. -/
def reset_absent (st : States) (detected_labels : List String) : States :=
  ⟨if "Left" ∈ detected_labels then st.left else init_hand_state,
   if "Right" ∈ detected_labels then st.right else init_hand_state⟩

def recognize_hands (cfg : Config) : List Obs → States → (ℕ → ℚ) → ℕ →
    States × ℕ × Except String (List HandResult)
  | [], st, _, t => (st, t, .ok [])
  | hand :: rest, st, clk, t =>
    andThen (recognize_hand cfg hand st clk t) fun r st1 t1 =>
    andThen (recognize_hands cfg rest st1 clk t1) fun rs st2 t2 =>
    (st2, t2, .ok (r :: rs))

/-- `recognize` (lines 188–225): reset the slots of absent labels,
then process each observation in order.  On an exception the state
mutated up to that point is returned alongside the error. -/
def recognize (cfg : Config) (st : States) (hands_data : List Obs)
    (clk : ℕ → ℚ) (t : ℕ) : States × ℕ × Except String (List HandResult) :=
  recognize_hands cfg hands_data (reset_absent st (hands_data.map Obs.label)) clk t

/-- `GestureRecognizer.reset` (lines 227–230). -/
def recognizer_reset (_st : States) : States := init_states

/-! ## `hand_tracker.py` — `HandTracker`

The MediaPipe detection itself is the external collaborator; the
embedded `process_frame` starts from its output, a list of
(handedness label, raw 21-point landmark set) pairs in detection
order.  The EMA filters live in a list indexed by detection order
(`self.filters[i]`, line 105), not by label. -/

/-- The mutable tracker state: one filter slot per possible hand
(length `max_num_hands`), plus the calibration offset/flag
(lines 61–66). -/
structure TrackerState where
  filters : List (Option (List Point))
  calibration_offset : ℚ × ℚ
  is_calibrated : Bool
deriving DecidableEq, Repr

/-- A fresh tracker: all filters uninitialized, offset (0,0),
calibration disabled. -/
def init_tracker (max_num_hands : ℕ) : TrackerState :=
  ⟨List.replicate max_num_hands none, (0, 0), false⟩

/-- `landmarks[:, :2] += offset` (line 109): add the calibration
offset to x and y of every point, z untouched. -/
def addOffset (off : ℚ × ℚ) (lms : List Point) : List Point :=
  lms.map fun p => ⟨p.x + off.1, p.y + off.2, p.z⟩

/-- `get_all_fingertips` (lines 173–181): the five tip coordinates. -/
structure Fingertips where
  thumb : ℚ × ℚ
  index : ℚ × ℚ
  middle : ℚ × ℚ
  ring : ℚ × ℚ
  pinky : ℚ × ℚ
deriving DecidableEq, Repr

def get_all_fingertips (lms : List Point) : Except String Fingertips := do
  let t ← nth lms 4
  let i ← nth lms 8
  let m ← nth lms 12
  let r ← nth lms 16
  let p ← nth lms 20
  pure ⟨(t.x, t.y), (i.x, i.y), (m.x, m.y), (r.x, r.y), (p.x, p.y)⟩

/-- One entry of `hands_data` (lines 113–117; the visualization-only
fields are outside the core). -/
structure HandData where
  landmarks : List Point
  label : String
  fingers : Fingertips
deriving DecidableEq, Repr

/-- The detection loop plus the trailing reset loop of `process_frame`
(lines 92–124), with the filter list playing the role of
`self.filters`:

* observation `i` (detection order, capped at `max_num_hands` by the
  `break`) is smoothed by filter `i`;
* `update` returns the array the filter stores, and the in-place
  `landmarks[:, :2] += self.calibration_offset` (line 109) therefore
  also overwrites the filter's stored state with the offset array —
  the filter slot is written back with the *post-offset* value;
* filters with index ≥ the number of processed observations are
  reset (lines 122–124) — but only when the loop completes: an
  exception propagates at once, leaving the remaining filters as
  they were. -/
def process_hands (alpha : ℚ) (off : ℚ × ℚ) (cal : Bool) :
    List (String × List Point) → List (Option (List Point)) →
    List (Option (List Point)) × Except String (List HandData)
  | _, [] => ([], .ok [])
  | [], fs => (fs.map fun _ => none, .ok [])
  | (label, lms) :: rest, f :: fs =>
    match MultiPointEMAFilter.update alpha f lms with
    | .error e => (f :: fs, .error e)
    | .ok (smoothed, _stored) =>
      let out := if cal then addOffset off smoothed else smoothed
      -- the aliasing write-back: the stored array is the returned
      -- array, mutated in place by the offset addition
      let stored := some out
      match get_all_fingertips out with
      | .error e => (stored :: fs, .error e)
      | .ok ftips =>
        match process_hands alpha off cal rest fs with
        | (fs2, .error e) => (stored :: fs2, .error e)
        | (fs2, .ok hds) => (stored :: fs2, .ok (⟨out, label, ftips⟩ :: hds))

/-- `process_frame` (lines 73–126) restricted to the core pipeline:
per detected hand, smooth, apply calibration if enabled, build the
hand record; then reset the unused filters. -/
def process_frame (alpha : ℚ) (ts : TrackerState)
    (obs : List (String × List Point)) :
    TrackerState × Except String (List HandData) :=
  let r := process_hands alpha ts.calibration_offset ts.is_calibrated obs ts.filters
  ({ts with filters := r.1}, r.2)

/-- `calibrate` (lines 147–158): `offset = target - landmarks[finger_idx, :2]`,
enable calibration. -/
def calibrate (ts : TrackerState) (lms : List Point) (target : ℚ × ℚ)
    (finger_idx : ℕ) : Except String TrackerState := do
  let p ← nth lms finger_idx
  pure {ts with calibration_offset := (target.1 - p.x, target.2 - p.y),
                is_calibrated := true}

/-- `reset_calibration` (lines 160–163). -/
def reset_calibration (ts : TrackerState) : TrackerState :=
  {ts with calibration_offset := (0, 0), is_calibrated := false}

/-! ## Concrete fixtures shared by the theorems below -/

deriving instance DecidableEq for Except

/-- A point with equal x and y and zero depth. -/
def pt (c : ℚ) : Point := ⟨c, c, 0⟩

/-- A valid 21-point landmark set with every point at `pt c`. -/
def lmsConst (c : ℚ) : List Point := List.replicate 21 (pt c)

/-- Clock stream `n ↦ n/10`. -/
def clkTenth : ℕ → ℚ := fun n => (n : ℚ) / 10

/-- Constant clock stream at 0. -/
def clkZero : ℕ → ℚ := fun _ => 0

/-- A recognizer state whose Left index and middle fingers hold a dwell
anchor at (0,0) with dwell start at time 0. -/
def stDwell : States :=
  { init_states with
    left := { init_hand_state with
      fingers := { init_hand_state.fingers with
        index := { init_finger_state with
          dwell_position := some (0, 0), dwell_start_time := some 0 },
        middle := { init_finger_state with
          dwell_position := some (0, 0), dwell_start_time := some 0 } } } }

/-- A recognizer state whose Left index finger holds a dwell anchor at
(0,0) with dwell start at time 10 (later than the cycle considered:
a clock regression). -/
def stReg : States :=
  { init_states with
    left := { init_hand_state with
      fingers := { init_hand_state.fingers with
        index := { init_finger_state with
          dwell_position := some (0, 0), dwell_start_time := some 10 } } } }

/-- Project a tracker result onto the index-fingertip pointers. -/
def index_pointers (r : Except String (List HandData)) :
    Except String (List (ℚ × ℚ)) :=
  r.map (List.map fun h => h.fingers.index)

/-- Claim C5: a fresh (or just-reset) Smoother returns the input
unchanged and initializes its state to it; every subsequent update
returns `alpha*raw + (1-alpha)*prev` independently per point and per
coordinate; from fresh state with alpha = 0.2, updating x0 then x1
yields x0 then `0.2*x1 + 0.8*x0`. -/
theorem c5_smoother_update_spec (alpha : ℚ) (prev p : List Point)
    (h : p.length = prev.length) :
    MultiPointEMAFilter.update alpha none p = .ok (p, some p)
    ∧ MultiPointEMAFilter.update alpha (MultiPointEMAFilter.reset (some prev)) p
        = .ok (p, some p)
    ∧ MultiPointEMAFilter.update alpha (some prev) p
        = .ok (List.zipWith (blendPoint alpha) p prev,
               some (List.zipWith (blendPoint alpha) p prev))
    ∧ (∀ (i : ℕ) (pi qi : Point), p.get? i = some pi → prev.get? i = some qi →
        (List.zipWith (blendPoint alpha) p prev).get? i =
          some ⟨alpha * pi.x + (1 - alpha) * qi.x,
                alpha * pi.y + (1 - alpha) * qi.y,
                alpha * pi.z + (1 - alpha) * qi.z⟩)
    ∧ (∀ x0 x1 : Point,
        MultiPointEMAFilter.update (1/5) (some [x0]) [x1]
          = .ok ([blendPoint (1/5) x1 x0], some [blendPoint (1/5) x1 x0])
        ∧ blendPoint (1/5) x1 x0
          = ⟨(1/5) * x1.x + (4/5) * x0.x, (1/5) * x1.y + (4/5) * x0.y,
             (1/5) * x1.z + (4/5) * x0.z⟩) := by
  refine ⟨rfl, rfl, ?_, ?_, ?_⟩
  · simp [MultiPointEMAFilter.update, h]
  · intro i pi qi hpi hqi
    rw [List.get?_zipWith']
    rw [List.get?_eq_getElem?] at hpi hqi
    simp [hpi, hqi, blendPoint]
  · intro x0 x1
    constructor
    · simp [MultiPointEMAFilter.update]
    · unfold blendPoint
      norm_num

/-- Witness for C5 at alpha = 1/5, concrete two-point lists. -/
theorem c5_smoother_update_spec_witness :
    ([pt 1, pt 2] : List Point).length = ([pt 0, pt 3] : List Point).length
    ∧ MultiPointEMAFilter.update (1/5) (some [pt 0, pt 3]) [pt 1, pt 2]
        = .ok (List.zipWith (blendPoint (1/5)) [pt 1, pt 2] [pt 0, pt 3],
               some (List.zipWith (blendPoint (1/5)) [pt 1, pt 2] [pt 0, pt 3])) :=
  ⟨by decide, (c5_smoother_update_spec (1/5) [pt 0, pt 3] [pt 1, pt 2] (by decide)).2.2.1⟩

/-- Claim C7, counterexample: the thumb's pinch record does report
`is_pinching = false` and `pinch_triggered = false`, but — contrary
to the claim and the spec's output contract — it contains no
`distance` field at all (`detect_pinch` returns the two-key
dictionary on its thumb early-return, lines 94–95). -/
theorem c7_thumb_distance_missing :
    (detect_pinch default_config init_states (lmsConst 0) "Left" .thumb
        THUMB_TIP clkZero 0).2.2 = .ok ⟨false, false, none⟩
    ∧ ¬ ∃ q : ℚ, (⟨false, false, none⟩ : PinchResult).distance = some q :=
  ⟨rfl, by simp⟩

/-- Claim C7 as amended: the thumb's pinch record is
`{is_pinching: false, pinch_triggered: false}` with no distance field
(and no state change, no clock read); every non-thumb finger's record
does contain the numeric distance (embedded squared). -/
theorem c7_amended_pinch_record_shape (cfg : Config) (st : States)
    (lms : List Point) (label : String) (f : Finger) (tip_idx : ℕ)
    (clk : ℕ → ℚ) (t : ℕ) (hs : HandState) (th tp : Point)
    (hf : f ≠ .thumb)
    (hhand : getHand st label = .ok hs)
    (hth : nth lms THUMB_TIP = .ok th)
    (htp : nth lms tip_idx = .ok tp) :
    detect_pinch cfg st lms label .thumb tip_idx clk t
        = (st, t, .ok ⟨false, false, none⟩)
    ∧ ∃ st2 trig,
        detect_pinch cfg st lms label f tip_idx clk t
          = (st2, t + 1,
             .ok ⟨decide (dist2xy (th.x, th.y) (tp.x, tp.y) < cfg.pinch_threshold ^ 2),
                  trig,
                  some (dist2xy (th.x, th.y) (tp.x, tp.y))⟩) := by
  constructor
  · rfl
  · simp only [detect_pinch, hf, if_false, hhand, hth, htp]
    exact ⟨_, _, rfl⟩

/-- Witness for the amended C7 at concrete inputs. -/
theorem c7_amended_pinch_record_shape_witness :
    (Finger.index ≠ Finger.thumb
      ∧ getHand init_states "Left" = .ok init_hand_state
      ∧ nth (lmsConst 0) THUMB_TIP = .ok (pt 0)
      ∧ nth (lmsConst 0) INDEX_TIP = .ok (pt 0))
    ∧ detect_pinch default_config init_states (lmsConst 0) "Left" .thumb
        INDEX_TIP clkZero 0 = (init_states, 0, .ok ⟨false, false, none⟩)
    ∧ ∃ st2 trig,
        detect_pinch default_config init_states (lmsConst 0) "Left" .index
            INDEX_TIP clkZero 0
          = (st2, 0 + 1,
             .ok ⟨decide (dist2xy ((pt 0).x, (pt 0).y) ((pt 0).x, (pt 0).y)
                            < default_config.pinch_threshold ^ 2),
                  trig,
                  some (dist2xy ((pt 0).x, (pt 0).y) ((pt 0).x, (pt 0).y))⟩) :=
  ⟨⟨by decide, by decide, by decide, by decide⟩,
   (c7_amended_pinch_record_shape default_config init_states (lmsConst 0) "Left"
      .index INDEX_TIP clkZero 0 init_hand_state (pt 0) (pt 0)
      (by decide) (by decide) (by decide) (by decide)).1,
   (c7_amended_pinch_record_shape default_config init_states (lmsConst 0) "Left"
      .index INDEX_TIP clkZero 0 init_hand_state (pt 0) (pt 0)
      (by decide) (by decide) (by decide) (by decide)).2⟩

/-- Claim C8: `is_fist` is true iff each of index, middle, ring and
pinky is folded, where folded is the hardcoded
`distance(tip, wrist) < 1.1 × distance(mcp, wrist)` test (embedded in
exactly-equivalent squared form `100·d² < 121·m²`; the third conjunct
is the bridge to the source's real-distance form, and squared
distances are nonnegative by the fourth conjunct); `fist_threshold`
is never read by `detect_fist`, so two configurations differing only
in `fist_threshold` produce identical results on every input. -/
theorem c8_fist_fold_rule (cfg : Config) (x : ℚ) (st : States)
    (lms : List Point) (label : String) (clk : ℕ → ℚ) (t : ℕ)
    (hs : HandState) (w i8 i5 i12 i9 i16 i13 i20 i17 : Point)
    (hhand : getHand st label = .ok hs)
    (h0 : nth lms WRIST = .ok w)
    (h8 : nth lms INDEX_TIP = .ok i8) (h5 : nth lms INDEX_MCP = .ok i5)
    (h12 : nth lms MIDDLE_TIP = .ok i12) (h9 : nth lms MIDDLE_MCP = .ok i9)
    (h16 : nth lms RING_TIP = .ok i16) (h13 : nth lms RING_MCP = .ok i13)
    (h20 : nth lms PINKY_TIP = .ok i20) (h17 : nth lms PINKY_MCP = .ok i17) :
    (∃ st2 trig, detect_fist cfg st lms label clk t
        = (st2, t + 1,
           .ok ⟨decide (100 * dist2 i8 w < 121 * dist2 i5 w)
                  && decide (100 * dist2 i12 w < 121 * dist2 i9 w)
                  && decide (100 * dist2 i16 w < 121 * dist2 i13 w)
                  && decide (100 * dist2 i20 w < 121 * dist2 i17 w), trig⟩))
    ∧ ((decide (100 * dist2 i8 w < 121 * dist2 i5 w)
          && decide (100 * dist2 i12 w < 121 * dist2 i9 w)
          && decide (100 * dist2 i16 w < 121 * dist2 i13 w)
          && decide (100 * dist2 i20 w < 121 * dist2 i17 w)) = true
        ↔ (100 * dist2 i8 w < 121 * dist2 i5 w
           ∧ 100 * dist2 i12 w < 121 * dist2 i9 w
           ∧ 100 * dist2 i16 w < 121 * dist2 i13 w
           ∧ 100 * dist2 i20 w < 121 * dist2 i17 w))
    ∧ (∀ d m : ℚ, 0 ≤ d → 0 ≤ m →
        (100 * d < 121 * m
          ↔ Real.sqrt (d : ℝ) < (11 / 10) * Real.sqrt (m : ℝ)))
    ∧ (∀ a b : Point, 0 ≤ dist2 a b)
    ∧ detect_fist {cfg with fist_threshold := x} st lms label clk t
        = detect_fist cfg st lms label clk t := by
  refine ⟨?_, ?_, ?_, ?_, rfl⟩
  · simp only [detect_fist, hhand, is_finger_folded, h0, h8, h5, h12, h9, h16,
      h13, h20, h17, Bind.bind, Except.bind, Pure.pure, Except.pure]
    exact ⟨_, _, rfl⟩
  · simp [and_assoc]
  · intro d m hd _hm
    rw [sqrt_lt_mul_sqrt_iff (d : ℝ) (m : ℝ) (11 / 10) (by exact_mod_cast hd)
          (by norm_num)]
    rw [show ((11 : ℝ) / 10) ^ 2 = 121 / 100 by norm_num]
    constructor
    · intro hlt
      have hq : d < 121 / 100 * m := by linarith
      have hr : ((d : ℚ) : ℝ) < ((121 / 100 * m : ℚ) : ℝ) := by exact_mod_cast hq
      push_cast at hr
      linarith
    · intro hlt
      have hr : ((d : ℚ) : ℝ) < ((121 / 100 * m : ℚ) : ℝ) := by push_cast; linarith
      have hq : d < 121 / 100 * m := by exact_mod_cast hr
      linarith
  · intro a b
    unfold dist2
    positivity

/-- Witness for C8: a concrete fist (tips at the wrist, MCPs away). -/
theorem c8_fist_fold_rule_witness :
    (getHand init_states "Left" = .ok init_hand_state
      ∧ nth (lmsConst 0) WRIST = .ok (pt 0)
      ∧ nth (lmsConst 0) INDEX_TIP = .ok (pt 0))
    ∧ ∃ st2 trig, detect_fist default_config init_states (lmsConst 0) "Left"
        clkZero 0
        = (st2, 0 + 1,
           .ok ⟨decide (100 * dist2 (pt 0) (pt 0) < 121 * dist2 (pt 0) (pt 0))
                  && decide (100 * dist2 (pt 0) (pt 0) < 121 * dist2 (pt 0) (pt 0))
                  && decide (100 * dist2 (pt 0) (pt 0) < 121 * dist2 (pt 0) (pt 0))
                  && decide (100 * dist2 (pt 0) (pt 0) < 121 * dist2 (pt 0) (pt 0)),
                trig⟩) :=
  ⟨⟨by decide, by decide, by decide⟩,
   (c8_fist_fold_rule default_config 0 init_states (lmsConst 0) "Left" clkZero 0
      init_hand_state (pt 0) (pt 0) (pt 0) (pt 0) (pt 0) (pt 0) (pt 0) (pt 0) (pt 0)
      (by decide) (by decide) (by decide) (by decide) (by decide) (by decide)
      (by decide) (by decide) (by decide) (by decide)).1⟩

/-- Claim C9 is violated by the code: `detect_dwell` computes
`elapsed = current_time - dwell_start` with no lower clamp (line 175);
when the captured timestamp (5) is earlier than the stored dwell start
(10), the returned `dwell_progress` is `min(-5 / 0.8, 1.0) = -25/4`,
a negative value outside [0,1]. -/
theorem c9_negative_dwell_progress :
    (detect_dwell default_config stReg (pt 0) "Left" .index (fun _ => 5) 0).2.2
      = .ok ⟨-25 / 4, false⟩
    ∧ ((-25 : ℚ) / 4) < 0 :=
  ⟨by with_unfolding_all decide, by norm_num⟩

/-- Claim C10 is violated by the code: no fail-fast validation exists.
First conjunct: a fresh `MultiPointEMAFilter` configured for 21 points
accepts a 5-point set without any error and silently initializes its
state to it.  Remaining conjuncts: `recognize` on an observation with
the unknown label "Up" does raise `KeyError` — but only after the
reset loop has already reinitialized both slots, so state *was*
updated from the malformed input (`stDwell` was not the initial
state); and `recognize` on a 9-point Left observation raises
`IndexError` only after the thumb and index dwell/pinch states have
already been updated. -/
theorem c10_malformed_input_not_rejected :
    MultiPointEMAFilter.update (1/5) none (List.replicate 5 (pt 1))
      = .ok (List.replicate 5 (pt 1), some (List.replicate 5 (pt 1)))
    ∧ (recognize default_config stDwell [⟨"Up", lmsConst 0⟩] clkZero 0).2.2
        = .error "KeyError"
    ∧ (recognize default_config stDwell [⟨"Up", lmsConst 0⟩] clkZero 0).1
        = init_states
    ∧ stDwell ≠ init_states
    ∧ (recognize default_config init_states [⟨"Left", List.replicate 9 (pt 0)⟩]
        clkZero 0).2.2 = .error "IndexError"
    ∧ (recognize default_config init_states [⟨"Left", List.replicate 9 (pt 0)⟩]
        clkZero 0).1 ≠ init_states := by
  refine ⟨rfl, ?_, ?_, ?_, ?_, ?_⟩ <;> with_unfolding_all decide

/-- For a valid label, reading back a slot just written. -/
theorem getHand_setHand (st : States) (label : String) (hs : HandState)
    (h : label = "Left" ∨ label = "Right") :
    getHand (setHand st label hs) label = .ok hs := by
  rcases h with h | h <;> subst h <;> simp [getHand, setHand]

/-- Reading back a finger slot just written. -/
theorem getFinger_setFinger (fs : FingersState) (f : Finger) (s : FingerState) :
    getFinger (setFinger fs f s) f = s := by
  cases f <;> rfl

/-- Claim C3, counterexample: the code does *not* capture a single
wall-clock timestamp per cycle — each of `detect_pinch` (line 105),
`detect_fist` (line 137) and `detect_dwell` (line 158) calls
`time.time()` itself.  With the index and middle fingers both holding
a dwell anchor at (0,0) since time 0 and a stationary hand, a cycle
under the clock stream `n ↦ n/10` reports different dwell progress
for the two fingers (1/8 vs 3/8, read at different instants), while
the claimed single-timestamp semantics (every read replaced by the
cycle's first instant, 0) reports 0 for both; the full outputs
differ. -/
theorem c3_multiple_timestamps_per_cycle :
    clkTenth 0 = clkZero 0
    ∧ recognize default_config stDwell [⟨"Left", lmsConst 0⟩] clkTenth 0
        ≠ recognize default_config stDwell [⟨"Left", lmsConst 0⟩]
            (fun _ => clkTenth 0) 0
    ∧ (recognize default_config stDwell [⟨"Left", lmsConst 0⟩] clkTenth 0).2.2.map
        (List.map fun h => h.fingers.index.dwell.dwell_progress) = .ok [1/8]
    ∧ (recognize default_config stDwell [⟨"Left", lmsConst 0⟩] clkTenth 0).2.2.map
        (List.map fun h => h.fingers.middle.dwell.dwell_progress) = .ok [3/8]
    ∧ (recognize default_config stDwell [⟨"Left", lmsConst 0⟩]
        (fun _ => clkTenth 0) 0).2.2.map
        (List.map fun h => h.fingers.index.dwell.dwell_progress) = .ok [0]
    ∧ (recognize default_config stDwell [⟨"Left", lmsConst 0⟩]
        (fun _ => clkTenth 0) 0).2.2.map
        (List.map fun h => h.fingers.middle.dwell.dwell_progress) = .ok [0] := by
  refine ⟨?_, ?_, ?_, ?_, ?_, ?_⟩ <;> with_unfolding_all decide

/-- Claim C3 as amended: each *detector invocation* captures its own
timestamp when invoked — the invocation at call counter `t` behaves
exactly as under the constant clock frozen at its own single read
`clk t`, so all comparisons within one detector use one instant — but
different detectors of the same cycle run at different counters and
may observe different instants (see the counterexample). -/
theorem c3_amended_per_detector_timestamp (cfg : Config) (st : States)
    (tip : Point) (lms : List Point) (label : String) (f : Finger)
    (tip_idx t : ℕ) (clk : ℕ → ℚ) :
    detect_dwell cfg st tip label f clk t
      = detect_dwell cfg st tip label f (fun _ => clk t) t
    ∧ detect_pinch cfg st lms label f tip_idx clk t
      = detect_pinch cfg st lms label f tip_idx (fun _ => clk t) t
    ∧ detect_fist cfg st lms label clk t
      = detect_fist cfg st lms label (fun _ => clk t) t :=
  ⟨rfl, rfl, rfl⟩

/-- Abbreviation for the state write-back all three detectors perform
on a finger slot: store finger state `s` for finger `f` of the hand
`hs` found under `label`. -/
def withFinger (st : States) (label : String) (hs : HandState)
    (f : Finger) (s : FingerState) : States :=
  setHand st label {hs with fingers := setFinger hs.fingers f s}

/-- The dwell relocation write (`detect_dwell` lines 160–163 and
170–173): anchor moves to the tip, dwell start resets to now. -/
def dwell_relocate (fs : FingerState) (tip : Point) (now : ℚ) : FingerState :=
  {fs with dwell_position := some (tip.x, tip.y), dwell_start_time := some now}

/-- The dwell re-arm write on trigger (`detect_dwell` line 181):
only the dwell start moves to now; the anchor is unchanged. -/
def dwell_restart (fs : FingerState) (now : ℚ) : FingerState :=
  {fs with dwell_start_time := some now}

/-- Claim C6: dwell semantics per finger.  (a) With no anchor, the
anchor relocates to the current position, dwell start resets to now,
result {progress 0, triggered false}; (b) likewise when the tip moved
beyond `dwell_radius` from the anchor (squared embedding of
`distance > dwell_radius`); (c) otherwise
`progress = min((now - dwell_start)/dwell_time, 1.0)` — `pymin` is
exactly `min`, conjunct (e) — and when progress reaches 1.0 the call
returns triggered = true and resets only `dwell_start` to now leaving
the anchor unchanged, else triggered = false and the state is
untouched; (d) for positive `dwell_time`, progress reaches 1.0 iff
`dwell_time` has elapsed, so (f) after a trigger at instant `now` the
same stationary hold (still within radius of the *same* anchor)
re-triggers exactly when another `dwell_time` has passed:
repeat-fire, not one-shot. -/
theorem c6_dwell_semantics (cfg : Config) (st : States) (tip : Point)
    (label : String) (f : Finger) (clk : ℕ → ℚ) (t : ℕ) (hs : HandState)
    (hhand : getHand st label = .ok hs) :
    ((getFinger hs.fingers f).dwell_position = none →
      detect_dwell cfg st tip label f clk t
        = (withFinger st label hs f
             (dwell_relocate (getFinger hs.fingers f) tip (clk t)),
           t + 1, .ok ⟨0, false⟩))
    ∧ (∀ a, (getFinger hs.fingers f).dwell_position = some a →
        cfg.dwell_radius ^ 2 < dist2xy a (tip.x, tip.y) →
        detect_dwell cfg st tip label f clk t
          = (withFinger st label hs f
               (dwell_relocate (getFinger hs.fingers f) tip (clk t)),
             t + 1, .ok ⟨0, false⟩))
    ∧ (∀ a s0, (getFinger hs.fingers f).dwell_position = some a →
        (getFinger hs.fingers f).dwell_start_time = some s0 →
        ¬ cfg.dwell_radius ^ 2 < dist2xy a (tip.x, tip.y) →
        (1 ≤ pymin ((clk t - s0) / cfg.dwell_time) 1 →
          detect_dwell cfg st tip label f clk t
            = (withFinger st label hs f
                 (dwell_restart (getFinger hs.fingers f) (clk t)),
               t + 1, .ok ⟨pymin ((clk t - s0) / cfg.dwell_time) 1, true⟩))
        ∧ (¬ 1 ≤ pymin ((clk t - s0) / cfg.dwell_time) 1 →
          detect_dwell cfg st tip label f clk t
            = (st, t + 1, .ok ⟨pymin ((clk t - s0) / cfg.dwell_time) 1, false⟩)))
    ∧ (0 < cfg.dwell_time → ∀ x : ℚ,
        (1 ≤ pymin (x / cfg.dwell_time) 1 ↔ cfg.dwell_time ≤ x))
    ∧ (∀ x : ℚ, pymin x 1 = min x 1)
    ∧ (label = "Left" ∨ label = "Right" → 0 < cfg.dwell_time →
        ∀ a s0, (getFinger hs.fingers f).dwell_position = some a →
        (getFinger hs.fingers f).dwell_start_time = some s0 →
        ¬ cfg.dwell_radius ^ 2 < dist2xy a (tip.x, tip.y) →
        cfg.dwell_time ≤ clk t - s0 →
        ∀ (tip2 : Point) (clk2 : ℕ → ℚ) (t2 : ℕ),
          ¬ cfg.dwell_radius ^ 2 < dist2xy a (tip2.x, tip2.y) →
          (detect_dwell cfg (detect_dwell cfg st tip label f clk t).1 tip2
              label f clk2 t2).2.2
            = .ok ⟨pymin ((clk2 t2 - clk t) / cfg.dwell_time) 1,
                   decide (cfg.dwell_time ≤ clk2 t2 - clk t)⟩) := by
  have harith : ∀ T x : ℚ, 0 < T → (1 ≤ pymin (x / T) 1 ↔ T ≤ x) := by
    intro T x hT
    rw [pymin_eq_min, le_min_iff]
    simp only [le_refl, and_true]
    rw [le_div_iff₀ hT, one_mul]
  have hstep_gen : ∀ (st' : States) (hs' : HandState) (tip' : Point)
      (clk' : ℕ → ℚ) (t' : ℕ) (a' : ℚ × ℚ) (s0' : ℚ),
      getHand st' label = .ok hs' →
      (getFinger hs'.fingers f).dwell_position = some a' →
      (getFinger hs'.fingers f).dwell_start_time = some s0' →
      ¬ cfg.dwell_radius ^ 2 < dist2xy a' (tip'.x, tip'.y) →
      (detect_dwell cfg st' tip' label f clk' t').2.2 =
        .ok ⟨pymin ((clk' t' - s0') / cfg.dwell_time) 1,
             decide (1 ≤ pymin ((clk' t' - s0') / cfg.dwell_time) 1)⟩ := by
    intro st' hs' tip' clk' t' a' s0' h1 h2 h3 h4
    by_cases h5 : 1 ≤ pymin ((clk' t' - s0') / cfg.dwell_time) 1
    · simp [detect_dwell, h1, h2, h3, h4, h5]
    · simp [detect_dwell, h1, h2, h3, h4, h5]
  refine ⟨?_, ?_, ?_, ?_, ?_, ?_⟩
  · intro hpos
    simp [detect_dwell, hhand, hpos, withFinger, dwell_relocate]
  · intro a hpos hrad
    simp [detect_dwell, hhand, hpos, hrad, withFinger, dwell_relocate]
  · intro a s0 hpos hstart hrad
    constructor
    · intro htrig
      simp [detect_dwell, hhand, hpos, hrad, hstart, htrig, withFinger,
        dwell_restart]
    · intro htrig
      simp [detect_dwell, hhand, hpos, hrad, hstart, htrig]
  · intro hT x
    exact harith cfg.dwell_time x hT
  · intro x
    exact pymin_eq_min x 1
  · intro hlab hT a s0 hpos hstart hrad helapsed tip2 clk2 t2 hrad2
    have htrig : 1 ≤ pymin ((clk t - s0) / cfg.dwell_time) 1 :=
      (harith cfg.dwell_time (clk t - s0) hT).mpr helapsed
    have hstep : detect_dwell cfg st tip label f clk t
        = (withFinger st label hs f
             (dwell_restart (getFinger hs.fingers f) (clk t)),
           t + 1, .ok ⟨pymin ((clk t - s0) / cfg.dwell_time) 1, true⟩) := by
      simp [detect_dwell, hhand, hpos, hrad, hstart, htrig, withFinger,
        dwell_restart]
    rw [hstep]
    have hhand2 : getHand (withFinger st label hs f
        (dwell_restart (getFinger hs.fingers f) (clk t))) label
        = .ok {hs with
                 fingers := setFinger hs.fingers f
                              (dwell_restart (getFinger hs.fingers f) (clk t))} :=
      getHand_setHand _ _ _ hlab
    have hres := hstep_gen
        (withFinger st label hs f (dwell_restart (getFinger hs.fingers f) (clk t)))
        {hs with
           fingers := setFinger hs.fingers f
                        (dwell_restart (getFinger hs.fingers f) (clk t))}
        tip2 clk2 t2 a (clk t) hhand2
        (by simp [getFinger_setFinger, dwell_restart, hpos])
        (by simp [getFinger_setFinger, dwell_restart]) hrad2
    rw [hres]
    have hiff : (1 ≤ pymin ((clk2 t2 - clk t) / cfg.dwell_time) 1)
        ↔ (cfg.dwell_time ≤ clk2 t2 - clk t) :=
      harith cfg.dwell_time (clk2 t2 - clk t) hT
    rw [decide_eq_decide.mpr hiff]

/-- Witness for C6: with the Left index finger anchored at (0,0)
since time 0 and a stationary tip, a call at time 1 (≥ dwell_time
0.8 elapsed) triggers and re-arms the dwell start. -/
theorem c6_dwell_semantics_witness :
    (getHand stDwell "Left" = .ok stDwell.left
      ∧ (getFinger stDwell.left.fingers .index).dwell_position = some (0, 0)
      ∧ (getFinger stDwell.left.fingers .index).dwell_start_time = some 0
      ∧ ¬ default_config.dwell_radius ^ 2 < dist2xy (0, 0) ((pt 0).x, (pt 0).y)
      ∧ 1 ≤ pymin (((1 : ℚ) - 0) / default_config.dwell_time) 1)
    ∧ detect_dwell default_config stDwell (pt 0) "Left" .index
        (fun _ => (1 : ℚ)) 0
        = (withFinger stDwell "Left" stDwell.left .index
             (dwell_restart (getFinger stDwell.left.fingers .index) 1),
           0 + 1,
           .ok ⟨pymin (((1 : ℚ) - 0) / default_config.dwell_time) 1, true⟩) :=
  ⟨⟨by with_unfolding_all decide, by with_unfolding_all decide,
    by with_unfolding_all decide, by with_unfolding_all decide,
    by with_unfolding_all decide⟩,
   ((c6_dwell_semantics default_config stDwell (pt 0) "Left" .index
       (fun _ => (1 : ℚ)) 0 stDwell.left
       (by with_unfolding_all decide)).2.2.1 (0, 0) 0
       (by with_unfolding_all decide) (by with_unfolding_all decide)
       (by with_unfolding_all decide)).1 (by with_unfolding_all decide)⟩

/-! ## Hold/latch step and streak lemmas for C4

A "streak" is a sequence of consecutive cycles on which the underlying
condition (pinching / fist) holds.  `pinch_run` and `fist_run` drive
the detector over a list of capture instants against a fixed landmark
set (each cycle's single `time.time()` read returns that cycle's
instant — justified by `c3_amended_per_detector_timestamp`) and count
the cycles whose `*_triggered` flag came out true. -/

def pinch_run (cfg : Config) (lms : List Point) (label : String)
    (f : Finger) (tip_idx : ℕ) : States → List ℚ → States × ℕ
  | st, [] => (st, 0)
  | st, now :: rest =>
    match detect_pinch cfg st lms label f tip_idx (fun _ => now) 0 with
    | (st1, _, .ok r) =>
      let c := pinch_run cfg lms label f tip_idx st1 rest
      (c.1, (if r.pinch_triggered then 1 else 0) + c.2)
    | (st1, _, .error _) => (st1, 0)

def fist_run (cfg : Config) (lms : List Point) (label : String) :
    States → List ℚ → States × ℕ
  | st, [] => (st, 0)
  | st, now :: rest =>
    match detect_fist cfg st lms label (fun _ => now) 0 with
    | (st1, _, .ok r) =>
      let c := fist_run cfg lms label st1 rest
      (c.1, (if r.fist_triggered then 1 else 0) + c.2)
    | (st1, _, .error _) => (st1, 0)

section HoldLatch

variable {cfg : Config} {st : States} {lms : List Point} {label : String}
variable {f : Finger} {tip_idx : ℕ} {hs : HandState} {th tp : Point}
variable {k : ℕ → ℚ} {t : ℕ}

/-- Non-pinching cycle: timer and latch cleared at once, no trigger. -/
theorem pinch_step_neg (hf : f ≠ .thumb) (hhand : getHand st label = .ok hs)
    (hth : nth lms THUMB_TIP = .ok th) (htp : nth lms tip_idx = .ok tp)
    (hno : ¬ dist2xy (th.x, th.y) (tp.x, tp.y) < cfg.pinch_threshold ^ 2) :
    detect_pinch cfg st lms label f tip_idx k t
      = (withFinger st label hs f
           ({getFinger hs.fingers f with
               pinch_start_time := none, was_pinching := false}),
         t + 1,
         .ok ⟨false, false, some (dist2xy (th.x, th.y) (tp.x, tp.y))⟩) := by
  simp [detect_pinch, hf, hhand, hth, htp, hno, withFinger]

/-- Pinching cycle with no running timer: the hold timer starts, no
trigger (even if the hold time is zero). -/
theorem pinch_step_start (hf : f ≠ .thumb) (hhand : getHand st label = .ok hs)
    (hth : nth lms THUMB_TIP = .ok th) (htp : nth lms tip_idx = .ok tp)
    (hpinch : dist2xy (th.x, th.y) (tp.x, tp.y) < cfg.pinch_threshold ^ 2)
    (hstart : (getFinger hs.fingers f).pinch_start_time = none) :
    detect_pinch cfg st lms label f tip_idx k t
      = (withFinger st label hs f
           ({getFinger hs.fingers f with pinch_start_time := some (k t)}),
         t + 1,
         .ok ⟨true, false, some (dist2xy (th.x, th.y) (tp.x, tp.y))⟩) := by
  simp [detect_pinch, hf, hhand, hth, htp, hpinch, hstart, withFinger]

/-- Pinching cycle, timer running since `s0`, hold time reached,
latch clear: the trigger fires exactly now and the latch closes. -/
theorem pinch_step_fire {s0 : ℚ} (hf : f ≠ .thumb)
    (hhand : getHand st label = .ok hs)
    (hth : nth lms THUMB_TIP = .ok th) (htp : nth lms tip_idx = .ok tp)
    (hpinch : dist2xy (th.x, th.y) (tp.x, tp.y) < cfg.pinch_threshold ^ 2)
    (hstart : (getFinger hs.fingers f).pinch_start_time = some s0)
    (hlatch : (getFinger hs.fingers f).was_pinching = false)
    (hheld : cfg.pinch_hold_time ≤ k t - s0) :
    detect_pinch cfg st lms label f tip_idx k t
      = (withFinger st label hs f
           ({getFinger hs.fingers f with was_pinching := true}),
         t + 1,
         .ok ⟨true, true, some (dist2xy (th.x, th.y) (tp.x, tp.y))⟩) := by
  simp [detect_pinch, hf, hhand, hth, htp, hpinch, hstart, hlatch, hheld,
    withFinger]

/-- Pinching cycle, timer running since `s0`, hold time not yet
reached: nothing changes, no trigger. -/
theorem pinch_step_wait {s0 : ℚ} (hf : f ≠ .thumb)
    (hhand : getHand st label = .ok hs)
    (hth : nth lms THUMB_TIP = .ok th) (htp : nth lms tip_idx = .ok tp)
    (hpinch : dist2xy (th.x, th.y) (tp.x, tp.y) < cfg.pinch_threshold ^ 2)
    (hstart : (getFinger hs.fingers f).pinch_start_time = some s0)
    (hwait : ¬ cfg.pinch_hold_time ≤ k t - s0) :
    detect_pinch cfg st lms label f tip_idx k t
      = (withFinger st label hs f (getFinger hs.fingers f),
         t + 1,
         .ok ⟨true, false, some (dist2xy (th.x, th.y) (tp.x, tp.y))⟩) := by
  simp [detect_pinch, hf, hhand, hth, htp, hpinch, hstart, hwait, withFinger]

/-- Pinching cycle with the latch closed: no trigger, latch stays
closed, the stored timer value survives. -/
theorem pinch_step_latched (hf : f ≠ .thumb)
    (hhand : getHand st label = .ok hs)
    (hth : nth lms THUMB_TIP = .ok th) (htp : nth lms tip_idx = .ok tp)
    (hpinch : dist2xy (th.x, th.y) (tp.x, tp.y) < cfg.pinch_threshold ^ 2)
    (hlatch : (getFinger hs.fingers f).was_pinching = true) :
    ∃ fs1 : FingerState,
      detect_pinch cfg st lms label f tip_idx k t
        = (withFinger st label hs f fs1, t + 1,
           .ok ⟨true, false, some (dist2xy (th.x, th.y) (tp.x, tp.y))⟩)
      ∧ fs1.was_pinching = true := by
  rcases hstart : (getFinger hs.fingers f).pinch_start_time with _ | s0
  · exact ⟨_, pinch_step_start hf hhand hth htp hpinch hstart, hlatch⟩
  · by_cases hheld : cfg.pinch_hold_time ≤ k t - s0
    · refine ⟨getFinger hs.fingers f, ?_, hlatch⟩
      simp [detect_pinch, hf, hhand, hth, htp, hpinch, hstart, hlatch, hheld,
        withFinger]
    · exact ⟨_, pinch_step_wait hf hhand hth htp hpinch hstart hheld, hlatch⟩

end HoldLatch

/-- While the latch is closed and the pinch held, a whole run fires
no trigger at all. -/
theorem pinch_run_latched {cfg : Config} {lms : List Point} {label : String}
    {f : Finger} {tip_idx : ℕ} {th tp : Point}
    (hf : f ≠ .thumb) (hlab : label = "Left" ∨ label = "Right")
    (hth : nth lms THUMB_TIP = .ok th) (htp : nth lms tip_idx = .ok tp)
    (hpinch : dist2xy (th.x, th.y) (tp.x, tp.y) < cfg.pinch_threshold ^ 2) :
    ∀ (ts : List ℚ) (st : States) (hs : HandState),
      getHand st label = .ok hs →
      (getFinger hs.fingers f).was_pinching = true →
      (pinch_run cfg lms label f tip_idx st ts).2 = 0 := by
  intro ts
  induction ts with
  | nil => intro st hs _ _; simp [pinch_run]
  | cons now rest ih =>
    intro st hs hhand hlatch
    obtain ⟨fs1, hstep, hlatch1⟩ :=
      pinch_step_latched (k := fun _ => now) (t := 0) hf hhand hth htp
        hpinch hlatch
    have hhand1 : getHand (withFinger st label hs f fs1) label
        = .ok {hs with fingers := setFinger hs.fingers f fs1} :=
      getHand_setHand _ _ _ hlab
    have hlatch1' :
        (getFinger (setFinger hs.fingers f fs1) f).was_pinching = true := by
      rw [getFinger_setFinger]; exact hlatch1
    simp only [pinch_run, hstep]
    rw [ih _ _ hhand1 hlatch1']
    simp

/-- With the timer running since `s0` and the latch open, a held run
fires exactly one trigger if some cycle's instant reaches `s0` plus
the hold time, and none otherwise. -/
theorem pinch_run_started {cfg : Config} {lms : List Point} {label : String}
    {f : Finger} {tip_idx : ℕ} {th tp : Point}
    (hf : f ≠ .thumb) (hlab : label = "Left" ∨ label = "Right")
    (hth : nth lms THUMB_TIP = .ok th) (htp : nth lms tip_idx = .ok tp)
    (hpinch : dist2xy (th.x, th.y) (tp.x, tp.y) < cfg.pinch_threshold ^ 2) :
    ∀ (ts : List ℚ) (s0 : ℚ) (st : States) (hs : HandState),
      getHand st label = .ok hs →
      (getFinger hs.fingers f).pinch_start_time = some s0 →
      (getFinger hs.fingers f).was_pinching = false →
      (pinch_run cfg lms label f tip_idx st ts).2
        = if ts.any (fun x => decide (cfg.pinch_hold_time ≤ x - s0))
          then 1 else 0 := by
  intro ts
  induction ts with
  | nil => intro s0 st hs _ _ _; simp [pinch_run]
  | cons now rest ih =>
    intro s0 st hs hhand hstart hlatch
    by_cases hheld : cfg.pinch_hold_time ≤ now - s0
    · have hstep := pinch_step_fire (k := fun _ => now) (t := 0) hf hhand
        hth htp hpinch hstart hlatch hheld
      have hhand1 : getHand (withFinger st label hs f
          ({getFinger hs.fingers f with was_pinching := true})) label
          = .ok {hs with
                   fingers := setFinger hs.fingers f
                                ({getFinger hs.fingers f with
                                    was_pinching := true})} :=
        getHand_setHand _ _ _ hlab
      have hlatch1 : (getFinger (setFinger hs.fingers f
          ({getFinger hs.fingers f with was_pinching := true})) f).was_pinching
          = true := by
        rw [getFinger_setFinger]
      simp only [pinch_run, hstep]
      rw [pinch_run_latched hf hlab hth htp hpinch rest _ _ hhand1 hlatch1]
      simp [hheld]
    · have hstep := pinch_step_wait (k := fun _ => now) (t := 0) hf hhand
        hth htp hpinch hstart hheld
      have hhand1 : getHand (withFinger st label hs f
          (getFinger hs.fingers f)) label
          = .ok {hs with
                   fingers := setFinger hs.fingers f
                                (getFinger hs.fingers f)} :=
        getHand_setHand _ _ _ hlab
      have hstart1 : (getFinger (setFinger hs.fingers f
          (getFinger hs.fingers f)) f).pinch_start_time = some s0 := by
        rw [getFinger_setFinger]; exact hstart
      have hlatch1 : (getFinger (setFinger hs.fingers f
          (getFinger hs.fingers f)) f).was_pinching = false := by
        rw [getFinger_setFinger]; exact hlatch
      simp only [pinch_run, hstep]
      rw [ih s0 _ _ hhand1 hstart1 hlatch1]
      simp [hheld]

/-- Folding the four per-finger `decide`s of `detect_fist` into one. -/
theorem decide_four {c1 c2 c3 c4 : Prop} [Decidable c1] [Decidable c2]
    [Decidable c3] [Decidable c4] :
    (decide c1 && decide c2 && decide c3 && decide c4)
      = decide (c1 ∧ c2 ∧ c3 ∧ c4) := by
  by_cases h1 : c1 <;> by_cases h2 : c2 <;> by_cases h3 : c3 <;>
    by_cases h4 : c4 <;> simp [h1, h2, h3, h4]

/-- The four (squared-embedded) fold conditions of `detect_fist`. -/
def all_folded (w i8 i5 i12 i9 i16 i13 i20 i17 : Point) : Prop :=
  100 * dist2 i8 w < 121 * dist2 i5 w
  ∧ 100 * dist2 i12 w < 121 * dist2 i9 w
  ∧ 100 * dist2 i16 w < 121 * dist2 i13 w
  ∧ 100 * dist2 i20 w < 121 * dist2 i17 w

instance (w i8 i5 i12 i9 i16 i13 i20 i17 : Point) :
    Decidable (all_folded w i8 i5 i12 i9 i16 i13 i20 i17) := by
  unfold all_folded; infer_instance

section FistLatch

variable {c : Config} {st : States} {lms : List Point} {label : String}
variable {hs : HandState} {w i8 i5 i12 i9 i16 i13 i20 i17 : Point}
variable {k : ℕ → ℚ} {t : ℕ}

/-- Non-fist cycle: timer and latch cleared at once, no trigger. -/
theorem fist_step_neg (hhand : getHand st label = .ok hs)
    (h0 : nth lms WRIST = .ok w)
    (h8 : nth lms INDEX_TIP = .ok i8) (h5 : nth lms INDEX_MCP = .ok i5)
    (h12 : nth lms MIDDLE_TIP = .ok i12) (h9 : nth lms MIDDLE_MCP = .ok i9)
    (h16 : nth lms RING_TIP = .ok i16) (h13 : nth lms RING_MCP = .ok i13)
    (h20 : nth lms PINKY_TIP = .ok i20) (h17 : nth lms PINKY_MCP = .ok i17)
    (hnot : ¬ all_folded w i8 i5 i12 i9 i16 i13 i20 i17) :
    detect_fist c st lms label k t
      = (setHand st label
           {hs with fist_start_time := none, was_fist := false},
         t + 1, .ok ⟨false, false⟩) := by
  simp only [detect_fist, hhand, is_finger_folded, h0, h8, h5, h12, h9, h16,
    h13, h20, h17, Bind.bind, Except.bind, Pure.pure, Except.pure]
  rw [decide_four]
  rw [decide_eq_false (show ¬ (100 * dist2 i8 w < 121 * dist2 i5 w
        ∧ 100 * dist2 i12 w < 121 * dist2 i9 w
        ∧ 100 * dist2 i16 w < 121 * dist2 i13 w
        ∧ 100 * dist2 i20 w < 121 * dist2 i17 w) by
          simpa [all_folded] using hnot)]
  rfl

/-- Fist cycle with no running timer: the hold timer starts, no
trigger (even if the hold time is zero). -/
theorem fist_step_start (hhand : getHand st label = .ok hs)
    (h0 : nth lms WRIST = .ok w)
    (h8 : nth lms INDEX_TIP = .ok i8) (h5 : nth lms INDEX_MCP = .ok i5)
    (h12 : nth lms MIDDLE_TIP = .ok i12) (h9 : nth lms MIDDLE_MCP = .ok i9)
    (h16 : nth lms RING_TIP = .ok i16) (h13 : nth lms RING_MCP = .ok i13)
    (h20 : nth lms PINKY_TIP = .ok i20) (h17 : nth lms PINKY_MCP = .ok i17)
    (hfold : all_folded w i8 i5 i12 i9 i16 i13 i20 i17)
    (hstart : hs.fist_start_time = none) :
    detect_fist c st lms label k t
      = (setHand st label {hs with fist_start_time := some (k t)},
         t + 1, .ok ⟨true, false⟩) := by
  simp only [detect_fist, hhand, is_finger_folded, h0, h8, h5, h12, h9, h16,
    h13, h20, h17, Bind.bind, Except.bind, Pure.pure, Except.pure]
  rw [decide_four]
  rw [decide_eq_true (show (100 * dist2 i8 w < 121 * dist2 i5 w
        ∧ 100 * dist2 i12 w < 121 * dist2 i9 w
        ∧ 100 * dist2 i16 w < 121 * dist2 i13 w
        ∧ 100 * dist2 i20 w < 121 * dist2 i17 w) by
          simpa [all_folded] using hfold)]
  simp [hstart]

/-- Fist cycle, timer running since `s0`, hold time reached, latch
open: the trigger fires exactly now and the latch closes. -/
theorem fist_step_fire {s0 : ℚ} (hhand : getHand st label = .ok hs)
    (h0 : nth lms WRIST = .ok w)
    (h8 : nth lms INDEX_TIP = .ok i8) (h5 : nth lms INDEX_MCP = .ok i5)
    (h12 : nth lms MIDDLE_TIP = .ok i12) (h9 : nth lms MIDDLE_MCP = .ok i9)
    (h16 : nth lms RING_TIP = .ok i16) (h13 : nth lms RING_MCP = .ok i13)
    (h20 : nth lms PINKY_TIP = .ok i20) (h17 : nth lms PINKY_MCP = .ok i17)
    (hfold : all_folded w i8 i5 i12 i9 i16 i13 i20 i17)
    (hstart : hs.fist_start_time = some s0)
    (hlatch : hs.was_fist = false)
    (hheld : c.fist_hold_time ≤ k t - s0) :
    detect_fist c st lms label k t
      = (setHand st label {hs with was_fist := true},
         t + 1, .ok ⟨true, true⟩) := by
  simp only [detect_fist, hhand, is_finger_folded, h0, h8, h5, h12, h9, h16,
    h13, h20, h17, Bind.bind, Except.bind, Pure.pure, Except.pure]
  rw [decide_four]
  rw [decide_eq_true (show (100 * dist2 i8 w < 121 * dist2 i5 w
        ∧ 100 * dist2 i12 w < 121 * dist2 i9 w
        ∧ 100 * dist2 i16 w < 121 * dist2 i13 w
        ∧ 100 * dist2 i20 w < 121 * dist2 i17 w) by
          simpa [all_folded] using hfold)]
  simp [hstart, hlatch, hheld]

/-- Fist cycle, timer running since `s0`, hold time not yet reached:
nothing changes, no trigger. -/
theorem fist_step_wait {s0 : ℚ} (hhand : getHand st label = .ok hs)
    (h0 : nth lms WRIST = .ok w)
    (h8 : nth lms INDEX_TIP = .ok i8) (h5 : nth lms INDEX_MCP = .ok i5)
    (h12 : nth lms MIDDLE_TIP = .ok i12) (h9 : nth lms MIDDLE_MCP = .ok i9)
    (h16 : nth lms RING_TIP = .ok i16) (h13 : nth lms RING_MCP = .ok i13)
    (h20 : nth lms PINKY_TIP = .ok i20) (h17 : nth lms PINKY_MCP = .ok i17)
    (hfold : all_folded w i8 i5 i12 i9 i16 i13 i20 i17)
    (hstart : hs.fist_start_time = some s0)
    (hwait : ¬ c.fist_hold_time ≤ k t - s0) :
    detect_fist c st lms label k t
      = (setHand st label hs, t + 1, .ok ⟨true, false⟩) := by
  simp only [detect_fist, hhand, is_finger_folded, h0, h8, h5, h12, h9, h16,
    h13, h20, h17, Bind.bind, Except.bind, Pure.pure, Except.pure]
  rw [decide_four]
  rw [decide_eq_true (show (100 * dist2 i8 w < 121 * dist2 i5 w
        ∧ 100 * dist2 i12 w < 121 * dist2 i9 w
        ∧ 100 * dist2 i16 w < 121 * dist2 i13 w
        ∧ 100 * dist2 i20 w < 121 * dist2 i17 w) by
          simpa [all_folded] using hfold)]
  simp [hstart, hwait]

/-- Fist cycle with the latch closed: no trigger, latch stays closed. -/
theorem fist_step_latched (hhand : getHand st label = .ok hs)
    (h0 : nth lms WRIST = .ok w)
    (h8 : nth lms INDEX_TIP = .ok i8) (h5 : nth lms INDEX_MCP = .ok i5)
    (h12 : nth lms MIDDLE_TIP = .ok i12) (h9 : nth lms MIDDLE_MCP = .ok i9)
    (h16 : nth lms RING_TIP = .ok i16) (h13 : nth lms RING_MCP = .ok i13)
    (h20 : nth lms PINKY_TIP = .ok i20) (h17 : nth lms PINKY_MCP = .ok i17)
    (hfold : all_folded w i8 i5 i12 i9 i16 i13 i20 i17)
    (hlatch : hs.was_fist = true) :
    ∃ hs1 : HandState,
      detect_fist c st lms label k t
        = (setHand st label hs1, t + 1, .ok ⟨true, false⟩)
      ∧ hs1.was_fist = true := by
  rcases hstart : hs.fist_start_time with _ | s0
  · exact ⟨_, fist_step_start hhand h0 h8 h5 h12 h9 h16 h13 h20 h17 hfold
      hstart, hlatch⟩
  · by_cases hheld : c.fist_hold_time ≤ k t - s0
    · refine ⟨hs, ?_, hlatch⟩
      simp only [detect_fist, hhand, is_finger_folded, h0, h8, h5, h12, h9,
        h16, h13, h20, h17, Bind.bind, Except.bind, Pure.pure, Except.pure]
      rw [decide_four]
      rw [decide_eq_true (show (100 * dist2 i8 w < 121 * dist2 i5 w
            ∧ 100 * dist2 i12 w < 121 * dist2 i9 w
            ∧ 100 * dist2 i16 w < 121 * dist2 i13 w
            ∧ 100 * dist2 i20 w < 121 * dist2 i17 w) by
              simpa [all_folded] using hfold)]
      simp [hstart, hlatch, hheld]
    · exact ⟨_, fist_step_wait hhand h0 h8 h5 h12 h9 h16 h13 h20 h17 hfold
        hstart hheld, hlatch⟩

end FistLatch

/-- While the fist latch is closed and the fist held, a whole run
fires no trigger at all. -/
theorem fist_run_latched {cfg : Config} {lms : List Point} {label : String}
    {w i8 i5 i12 i9 i16 i13 i20 i17 : Point}
    (hlab : label = "Left" ∨ label = "Right")
    (h0 : nth lms WRIST = .ok w)
    (h8 : nth lms INDEX_TIP = .ok i8) (h5 : nth lms INDEX_MCP = .ok i5)
    (h12 : nth lms MIDDLE_TIP = .ok i12) (h9 : nth lms MIDDLE_MCP = .ok i9)
    (h16 : nth lms RING_TIP = .ok i16) (h13 : nth lms RING_MCP = .ok i13)
    (h20 : nth lms PINKY_TIP = .ok i20) (h17 : nth lms PINKY_MCP = .ok i17)
    (hfold : all_folded w i8 i5 i12 i9 i16 i13 i20 i17) :
    ∀ (ts : List ℚ) (st : States) (hs : HandState),
      getHand st label = .ok hs → hs.was_fist = true →
      (fist_run cfg lms label st ts).2 = 0 := by
  intro ts
  induction ts with
  | nil => intro st hs _ _; simp [fist_run]
  | cons now rest ih =>
    intro st hs hhand hlatch
    obtain ⟨hs1, hstep, hlatch1⟩ :=
      fist_step_latched (c := cfg) (k := fun _ => now) (t := 0) hhand h0
        h8 h5 h12 h9 h16 h13 h20 h17 hfold hlatch
    have hhand1 : getHand (setHand st label hs1) label = .ok hs1 :=
      getHand_setHand _ _ _ hlab
    simp only [fist_run, hstep]
    rw [ih _ _ hhand1 hlatch1]
    simp

/-- With the fist timer running since `s0` and the latch open, a held
run fires exactly one trigger if some cycle's instant reaches `s0`
plus the hold time, and none otherwise. -/
theorem fist_run_started {cfg : Config} {lms : List Point} {label : String}
    {w i8 i5 i12 i9 i16 i13 i20 i17 : Point}
    (hlab : label = "Left" ∨ label = "Right")
    (h0 : nth lms WRIST = .ok w)
    (h8 : nth lms INDEX_TIP = .ok i8) (h5 : nth lms INDEX_MCP = .ok i5)
    (h12 : nth lms MIDDLE_TIP = .ok i12) (h9 : nth lms MIDDLE_MCP = .ok i9)
    (h16 : nth lms RING_TIP = .ok i16) (h13 : nth lms RING_MCP = .ok i13)
    (h20 : nth lms PINKY_TIP = .ok i20) (h17 : nth lms PINKY_MCP = .ok i17)
    (hfold : all_folded w i8 i5 i12 i9 i16 i13 i20 i17) :
    ∀ (ts : List ℚ) (s0 : ℚ) (st : States) (hs : HandState),
      getHand st label = .ok hs →
      hs.fist_start_time = some s0 →
      hs.was_fist = false →
      (fist_run cfg lms label st ts).2
        = if ts.any (fun x => decide (cfg.fist_hold_time ≤ x - s0))
          then 1 else 0 := by
  intro ts
  induction ts with
  | nil => intro s0 st hs _ _ _; simp [fist_run]
  | cons now rest ih =>
    intro s0 st hs hhand hstart hlatch
    by_cases hheld : cfg.fist_hold_time ≤ now - s0
    · have hstep := fist_step_fire (k := fun _ => now) (t := 0) hhand h0 h8
        h5 h12 h9 h16 h13 h20 h17 hfold hstart hlatch hheld
      have hhand1 : getHand (setHand st label {hs with was_fist := true}) label
          = .ok {hs with was_fist := true} :=
        getHand_setHand _ _ _ hlab
      simp only [fist_run, hstep]
      rw [fist_run_latched hlab h0 h8 h5 h12 h9 h16 h13 h20 h17 hfold rest _ _
        hhand1 rfl]
      simp [hheld]
    · have hstep := fist_step_wait (k := fun _ => now) (t := 0) hhand h0 h8
        h5 h12 h9 h16 h13 h20 h17 hfold hstart hheld
      have hhand1 : getHand (setHand st label hs) label = .ok hs :=
        getHand_setHand _ _ _ hlab
      simp only [fist_run, hstep]
      rw [ih s0 _ _ hhand1 hstart hlatch]
      simp [hheld]

/-- Claim C4: edge-triggered hold/latch semantics for pinch and fist.
Pinch, per non-thumb finger: (1) any non-pinching cycle clears the
hold timer and the latch immediately (no trigger); (2) with the latch
closed, a held run never fires again; (3) from a cleared state, a run
of consecutively pinching cycles at instants `t0 :: rest` fires
`pinch_triggered` on exactly one cycle if some later cycle's instant
reaches `t0 + pinch_hold_time` (the hold held continuously for at
least the configured hold time) and on none otherwise — so after a
clearing cycle a full new hold period is required.  (4)–(6): the same
three statements for the per-hand fist state, governed by
`fist_hold_time`. -/
theorem c4_hold_latch_edge_trigger (cfg : Config) (lms : List Point)
    (label : String) (f : Finger) (tip_idx : ℕ)
    (th tp w i8 i5 i12 i9 i16 i13 i20 i17 : Point)
    (hf : f ≠ .thumb) (hlab : label = "Left" ∨ label = "Right")
    (hth : nth lms THUMB_TIP = .ok th) (htp : nth lms tip_idx = .ok tp)
    (h0 : nth lms WRIST = .ok w)
    (h8 : nth lms INDEX_TIP = .ok i8) (h5 : nth lms INDEX_MCP = .ok i5)
    (h12 : nth lms MIDDLE_TIP = .ok i12) (h9 : nth lms MIDDLE_MCP = .ok i9)
    (h16 : nth lms RING_TIP = .ok i16) (h13 : nth lms RING_MCP = .ok i13)
    (h20 : nth lms PINKY_TIP = .ok i20) (h17 : nth lms PINKY_MCP = .ok i17) :
    (∀ (st : States) (hs : HandState) (k : ℕ → ℚ) (t : ℕ),
      getHand st label = .ok hs →
      ¬ dist2xy (th.x, th.y) (tp.x, tp.y) < cfg.pinch_threshold ^ 2 →
      detect_pinch cfg st lms label f tip_idx k t
        = (withFinger st label hs f
             ({getFinger hs.fingers f with
                 pinch_start_time := none, was_pinching := false}),
           t + 1,
           .ok ⟨false, false, some (dist2xy (th.x, th.y) (tp.x, tp.y))⟩))
    ∧ (dist2xy (th.x, th.y) (tp.x, tp.y) < cfg.pinch_threshold ^ 2 →
      ∀ (ts : List ℚ) (st : States) (hs : HandState),
        getHand st label = .ok hs →
        (getFinger hs.fingers f).was_pinching = true →
        (pinch_run cfg lms label f tip_idx st ts).2 = 0)
    ∧ (dist2xy (th.x, th.y) (tp.x, tp.y) < cfg.pinch_threshold ^ 2 →
      ∀ (t0 : ℚ) (rest : List ℚ) (st : States) (hs : HandState),
        getHand st label = .ok hs →
        (getFinger hs.fingers f).pinch_start_time = none →
        (getFinger hs.fingers f).was_pinching = false →
        (pinch_run cfg lms label f tip_idx st (t0 :: rest)).2
          = if rest.any (fun x => decide (cfg.pinch_hold_time ≤ x - t0))
            then 1 else 0)
    ∧ (∀ (st : States) (hs : HandState) (k : ℕ → ℚ) (t : ℕ),
      getHand st label = .ok hs →
      ¬ all_folded w i8 i5 i12 i9 i16 i13 i20 i17 →
      detect_fist cfg st lms label k t
        = (setHand st label
             {hs with fist_start_time := none, was_fist := false},
           t + 1, .ok ⟨false, false⟩))
    ∧ (all_folded w i8 i5 i12 i9 i16 i13 i20 i17 →
      ∀ (ts : List ℚ) (st : States) (hs : HandState),
        getHand st label = .ok hs → hs.was_fist = true →
        (fist_run cfg lms label st ts).2 = 0)
    ∧ (all_folded w i8 i5 i12 i9 i16 i13 i20 i17 →
      ∀ (t0 : ℚ) (rest : List ℚ) (st : States) (hs : HandState),
        getHand st label = .ok hs →
        hs.fist_start_time = none →
        hs.was_fist = false →
        (fist_run cfg lms label st (t0 :: rest)).2
          = if rest.any (fun x => decide (cfg.fist_hold_time ≤ x - t0))
            then 1 else 0) := by
  refine ⟨?_, ?_, ?_, ?_, ?_, ?_⟩
  · intro st hs k t hhand hno
    exact pinch_step_neg hf hhand hth htp hno
  · intro hpinch ts st hs hhand hlatch
    exact pinch_run_latched hf hlab hth htp hpinch ts st hs hhand hlatch
  · intro hpinch t0 rest st hs hhand hstart hlatch
    have hstep := pinch_step_start (k := fun _ => t0) (t := 0) hf hhand hth
      htp hpinch hstart
    have hhand1 : getHand (withFinger st label hs f
        ({getFinger hs.fingers f with pinch_start_time := some t0})) label
        = .ok {hs with
                 fingers := setFinger hs.fingers f
                              ({getFinger hs.fingers f with
                                  pinch_start_time := some t0})} :=
      getHand_setHand _ _ _ hlab
    have hstart1 : (getFinger (setFinger hs.fingers f
        ({getFinger hs.fingers f with pinch_start_time := some t0}))
          f).pinch_start_time = some t0 := by
      rw [getFinger_setFinger]
    have hlatch1 : (getFinger (setFinger hs.fingers f
        ({getFinger hs.fingers f with pinch_start_time := some t0}))
          f).was_pinching = false := by
      rw [getFinger_setFinger]; exact hlatch
    simp only [pinch_run, hstep]
    rw [pinch_run_started hf hlab hth htp hpinch rest t0 _ _ hhand1 hstart1
      hlatch1]
    simp
  · intro st hs k t hhand hnot
    exact fist_step_neg hhand h0 h8 h5 h12 h9 h16 h13 h20 h17 hnot
  · intro hfold ts st hs hhand hlatch
    exact fist_run_latched hlab h0 h8 h5 h12 h9 h16 h13 h20 h17 hfold ts st hs
      hhand hlatch
  · intro hfold t0 rest st hs hhand hstart hlatch
    have hstep := fist_step_start (c := cfg) (k := fun _ => t0) (t := 0)
      hhand h0 h8 h5 h12 h9 h16 h13 h20 h17 hfold hstart
    have hhand1 : getHand (setHand st label
        {hs with fist_start_time := some t0}) label
        = .ok {hs with fist_start_time := some t0} :=
      getHand_setHand _ _ _ hlab
    simp only [fist_run, hstep]
    rw [fist_run_started hlab h0 h8 h5 h12 h9 h16 h13 h20 h17 hfold rest t0 _
      _ hhand1 rfl hlatch]
    simp

/-- A 21-point landmark set whose tips all sit at the wrist (so every
pinch distance is 0 and every fold test passes) while the four MCP
joints sit away at (1,1,0). -/
def lmsFist : List Point :=
  (List.range 21).map fun i =>
    if i = 5 ∨ i = 9 ∨ i = 13 ∨ i = 17 then ⟨1, 1, 0⟩ else pt 0

/-- Witness for C4: on `lmsFist` with the default configuration, a
pinch streak at instants [0, 0.1] and a fist streak at instants
[0, 0.5] each fire exactly one trigger. -/
theorem c4_hold_latch_edge_trigger_witness :
    (Finger.index ≠ Finger.thumb
      ∧ ("Left" = "Left" ∨ "Left" = "Right")
      ∧ nth lmsFist THUMB_TIP = .ok (pt 0)
      ∧ nth lmsFist INDEX_TIP = .ok (pt 0)
      ∧ nth lmsFist WRIST = .ok (pt 0)
      ∧ nth lmsFist INDEX_MCP = .ok (⟨1, 1, 0⟩ : Point)
      ∧ nth lmsFist MIDDLE_TIP = .ok (pt 0)
      ∧ nth lmsFist MIDDLE_MCP = .ok (⟨1, 1, 0⟩ : Point)
      ∧ nth lmsFist RING_TIP = .ok (pt 0)
      ∧ nth lmsFist RING_MCP = .ok (⟨1, 1, 0⟩ : Point)
      ∧ nth lmsFist PINKY_TIP = .ok (pt 0)
      ∧ nth lmsFist PINKY_MCP = .ok (⟨1, 1, 0⟩ : Point))
    ∧ (pinch_run default_config lmsFist "Left" .index INDEX_TIP init_states
        [0, 1/10]).2
        = (if [(1 : ℚ)/10].any
              (fun x => decide (default_config.pinch_hold_time ≤ x - 0))
           then 1 else 0)
    ∧ (fist_run default_config lmsFist "Left" init_states [0, 1/2]).2
        = (if [(1 : ℚ)/2].any
              (fun x => decide (default_config.fist_hold_time ≤ x - 0))
           then 1 else 0) :=
  ⟨⟨by decide, by decide, by decide, by decide, by decide, by decide,
    by decide, by decide, by decide, by decide, by decide, by decide⟩,
   (c4_hold_latch_edge_trigger default_config lmsFist "Left" .index INDEX_TIP
      (pt 0) (pt 0) (pt 0) (pt 0) ⟨1, 1, 0⟩ (pt 0) ⟨1, 1, 0⟩ (pt 0) ⟨1, 1, 0⟩
      (pt 0) ⟨1, 1, 0⟩ (by decide) (by decide) (by decide) (by decide)
      (by decide) (by decide) (by decide) (by decide) (by decide) (by decide)
      (by decide) (by decide) (by decide)).2.2.1
      (by with_unfolding_all decide) 0 [1/10] init_states init_hand_state
      (by decide) (by decide) (by decide),
   (c4_hold_latch_edge_trigger default_config lmsFist "Left" .index INDEX_TIP
      (pt 0) (pt 0) (pt 0) (pt 0) ⟨1, 1, 0⟩ (pt 0) ⟨1, 1, 0⟩ (pt 0) ⟨1, 1, 0⟩
      (pt 0) ⟨1, 1, 0⟩ (by decide) (by decide) (by decide) (by decide)
      (by decide) (by decide) (by decide) (by decide) (by decide) (by decide)
      (by decide) (by decide) (by decide)).2.2.2.2.2
      (by with_unfolding_all decide) 0 [1/2] init_states init_hand_state
      (by decide) (by decide) (by decide)⟩

/-- A calibrated tracker whose first filter already holds the smoothed
set `lmsConst (1/5)`, with offset (0.1, 0.1). -/
def tsCal : TrackerState := ⟨[some (lmsConst (1/5)), none], (1/10, 1/10), true⟩

/-- Claim C1 is violated by the code: `update` returns the very array
it stores, and `landmarks[:, :2] += self.calibration_offset`
(hand_tracker.py line 109) mutates that array in place — i.e. the
filter's stored EMA state.  Feeding the constant raw set
`lmsConst (1/5)` to `tsCal`, the uncalibrated smoothed set is
`lmsConst (1/5)` on every cycle (EMA of a constant), so the claim
predicts a stored state of `lmsConst (1/5)` and a pointer of
(0.3, 0.3) on every calibrated cycle.  Instead, after one frame the
stored state is `lmsConst (3/10)` (the offset was written into it),
and the second frame's index pointer is (0.37, 0.37) =
0.3·0.2 + 0.7·0.3 + 0.1 — the offset has compounded. -/
theorem c1_calibration_offset_compounds :
    (process_frame (3/10) tsCal [("Left", lmsConst (1/5))]).1.filters
      = [some (lmsConst (3/10)), none]
    ∧ lmsConst (3/10) ≠ lmsConst (1/5)
    ∧ index_pointers (process_frame (3/10) tsCal [("Left", lmsConst (1/5))]).2
      = .ok [(3/10, 3/10)]
    ∧ index_pointers (process_frame (3/10)
        (process_frame (3/10) tsCal [("Left", lmsConst (1/5))]).1
        [("Left", lmsConst (1/5))]).2 = .ok [(37/100, 37/100)]
    ∧ ((37 : ℚ)/100, (37 : ℚ)/100) ≠ ((3 : ℚ)/10, (3 : ℚ)/10) := by
  refine ⟨?_, ?_, ?_, ?_, ?_⟩ <;> with_unfolding_all decide

/-- The tracker state after a frame seeing Left (at constant 0) in
detection slot 0 and Right (at constant 1) in detection slot 1. -/
def g1ts : TrackerState :=
  (process_frame (3/10) (init_tracker 2)
    [("Left", lmsConst 0), ("Right", lmsConst 1)]).1

/-- Claim C2, counterexample: the Smoother slots are keyed by
*detection index*, not by handedness label (hand_tracker.py line 105).
After a frame with Left in slot 0 and Right in slot 1, dropping Left
makes Right the 0-th detection: the code then smooths Right's
landmarks (constant 1) against *Left's* stored EMA state (constant 0)
— pointer (0.3, 0.3) instead of the (1, 1) the claim predicts for an
untouched Right Smoother — and resets filter 1, which held Right's
own state. -/
theorem c2_smoother_not_label_keyed :
    g1ts.filters = [some (lmsConst 0), some (lmsConst 1)]
    ∧ index_pointers (process_frame (3/10) g1ts [("Right", lmsConst 1)]).2
        = .ok [(3/10, 3/10)]
    ∧ (process_frame (3/10) g1ts [("Right", lmsConst 1)]).1.filters
        = [some (lmsConst (3/10)), none]
    ∧ ((3 : ℚ)/10, (3 : ℚ)/10) ≠ ((1 : ℚ), (1 : ℚ)) := by
  refine ⟨?_, ?_, ?_, ?_⟩ <;> with_unfolding_all decide

/-- Writing any slot under a label other than "Left" leaves the Left
slot untouched. -/
theorem setHand_left (st : States) (label : String) (hs : HandState)
    (hlab : label ≠ "Left") : (setHand st label hs).left = st.left := by
  unfold setHand
  rw [if_neg hlab]
  split <;> rfl

/-- `andThen` preserves any state invariant that its two stages do. -/
theorem andThen_keeps_left {α β : Type} (r : States × ℕ × Except String α)
    (kf : α → States → ℕ → States × ℕ × Except String β) (c : HandState)
    (hr : (r.1).left = c)
    (hk : ∀ (a : α) (t : ℕ), ((kf a r.1 t).1).left = c) :
    ((andThen r kf).1).left = c := by
  rcases r with ⟨st, t, x⟩
  cases x
  · exact hr
  · exact hk _ _

theorem detect_dwell_keeps_left (cfg : Config) (st : States) (tip : Point)
    (label : String) (f : Finger) (k : ℕ → ℚ) (t : ℕ)
    (hlab : label ≠ "Left") :
    ((detect_dwell cfg st tip label f k t).1).left = st.left := by
  unfold detect_dwell
  split
  · rfl
  · dsimp only
    split
    · exact setHand_left _ _ _ hlab
    · split
      · exact setHand_left _ _ _ hlab
      · split
        · rfl
        · split
          · exact setHand_left _ _ _ hlab
          · rfl

theorem detect_pinch_keeps_left (cfg : Config) (st : States)
    (lms : List Point) (label : String) (f : Finger) (tip_idx : ℕ)
    (k : ℕ → ℚ) (t : ℕ) (hlab : label ≠ "Left") :
    ((detect_pinch cfg st lms label f tip_idx k t).1).left = st.left := by
  unfold detect_pinch
  split
  · rfl
  · split
    · rfl
    · split
      · rfl
      · split
        · rfl
        · exact setHand_left _ _ _ hlab

theorem detect_fist_keeps_left (cfg : Config) (st : States)
    (lms : List Point) (label : String) (k : ℕ → ℚ) (t : ℕ)
    (hlab : label ≠ "Left") :
    ((detect_fist cfg st lms label k t).1).left = st.left := by
  unfold detect_fist
  split
  · rfl
  · split
    · rfl
    · rfl
    · rfl
    · rfl
    · dsimp only
      exact setHand_left _ _ _ hlab

theorem run_finger_keeps_left (cfg : Config) (lms : List Point)
    (label : String) (f : Finger) (tip_idx : ℕ) (st : States)
    (k : ℕ → ℚ) (t : ℕ) (hlab : label ≠ "Left") :
    ((run_finger cfg lms label f tip_idx st k t).1).left = st.left := by
  unfold run_finger
  split
  · rfl
  · apply andThen_keeps_left
    · exact detect_dwell_keeps_left _ _ _ _ _ _ _ hlab
    · intro a t1
      apply andThen_keeps_left
      · exact (detect_pinch_keeps_left _ _ _ _ _ _ _ _ hlab).trans
          (detect_dwell_keeps_left _ _ _ _ _ _ _ hlab)
      · intro b t2
        exact (detect_pinch_keeps_left _ _ _ _ _ _ _ _ hlab).trans
          (detect_dwell_keeps_left _ _ _ _ _ _ _ hlab)

theorem recognize_hand_keeps_left (cfg : Config) (hand : Obs) (st : States)
    (k : ℕ → ℚ) (t : ℕ) (hlab : hand.label ≠ "Left") :
    ((recognize_hand cfg hand st k t).1).left = st.left := by
  unfold recognize_hand
  have r1 := fun s u => run_finger_keeps_left cfg hand.landmarks hand.label
    .thumb THUMB_TIP s k u hlab
  have r2 := fun s u => run_finger_keeps_left cfg hand.landmarks hand.label
    .index INDEX_TIP s k u hlab
  have r3 := fun s u => run_finger_keeps_left cfg hand.landmarks hand.label
    .middle MIDDLE_TIP s k u hlab
  have r4 := fun s u => run_finger_keeps_left cfg hand.landmarks hand.label
    .ring RING_TIP s k u hlab
  have r5 := fun s u => run_finger_keeps_left cfg hand.landmarks hand.label
    .pinky PINKY_TIP s k u hlab
  have r6 := fun s u => detect_fist_keeps_left cfg s hand.landmarks
    hand.label k u hlab
  apply andThen_keeps_left
  · exact r1 _ _
  · intro o1 t1
    apply andThen_keeps_left
    · exact (r2 _ _).trans (r1 _ _)
    · intro o2 t2
      apply andThen_keeps_left
      · exact (r3 _ _).trans ((r2 _ _).trans (r1 _ _))
      · intro o3 t3
        apply andThen_keeps_left
        · exact (r4 _ _).trans ((r3 _ _).trans ((r2 _ _).trans (r1 _ _)))
        · intro o4 t4
          apply andThen_keeps_left
          · exact (r5 _ _).trans ((r4 _ _).trans ((r3 _ _).trans
              ((r2 _ _).trans (r1 _ _))))
          · intro o5 t5
            apply andThen_keeps_left
            · exact (r6 _ _).trans ((r5 _ _).trans ((r4 _ _).trans
                ((r3 _ _).trans ((r2 _ _).trans (r1 _ _)))))
            · intro fi t6
              exact (r6 _ _).trans ((r5 _ _).trans ((r4 _ _).trans
                ((r3 _ _).trans ((r2 _ _).trans (r1 _ _)))))

theorem recognize_hands_keeps_left (cfg : Config) :
    ∀ (hands : List Obs), (∀ h ∈ hands, h.label ≠ "Left") →
    ∀ (st : States) (k : ℕ → ℚ) (t : ℕ),
      ((recognize_hands cfg hands st k t).1).left = st.left := by
  intro hands
  induction hands with
  | nil => intro _ st k t; rfl
  | cons hand rest ih =>
    intro hall st k t
    have h1 : hand.label ≠ "Left" := hall hand (List.mem_cons_self _ _)
    have h2 : ∀ h ∈ rest, h.label ≠ "Left" :=
      fun h hm => hall h (List.mem_cons_of_mem _ hm)
    unfold recognize_hands
    apply andThen_keeps_left
    · exact recognize_hand_keeps_left _ _ _ _ _ h1
    · intro r t1
      apply andThen_keeps_left
      · exact (ih h2 _ _ _).trans (recognize_hand_keeps_left _ _ _ _ _ h1)
      · intro rs t2
        exact (ih h2 _ _ _).trans (recognize_hand_keeps_left _ _ _ _ _ h1)

/-- The trailing reset loop in list form. -/
theorem process_hands_nil (alpha : ℚ) (off : ℚ × ℚ) (cal : Bool)
    (fs : List (Option (List Point))) :
    process_hands alpha off cal [] fs = (fs.map fun _ => none, .ok []) := by
  cases fs <;> simp [process_hands]

/-- Claim C2 as amended.  Recognizer (label-keyed) part: in a cycle
whose only observation is Right, the Left slot's gesture state is
reinitialized and has no influence — the whole cycle output is
independent of the previous Left state, and the final Left slot is
the initial state (the Right slot is processed normally).  Tracker
(index-keyed) part: the Smoother filters are bound to detection
order, not labels — with a single present hand, filter 0 is updated
with that hand's landmarks regardless of its label and every later
filter is reset, so a surviving hand inherits whatever filter 0 held
(see the counterexample). -/
theorem c2_amended_slot_reset (cfg : Config) (L L2 R : HandState)
    (lms lms2 : List Point) (k : ℕ → ℚ) (t : ℕ)
    (alpha : ℚ) (off : ℚ × ℚ) (cal : Bool) (label : String)
    (f0 : Option (List Point)) (fs : List (Option (List Point)))
    (sm : List Point) (stored : Option (List Point)) (fts : Fingertips)
    (hupd : MultiPointEMAFilter.update alpha f0 lms2 = .ok (sm, stored))
    (hft : get_all_fingertips (if cal then addOffset off sm else sm)
             = .ok fts) :
    recognize cfg ⟨L, R⟩ [⟨"Right", lms⟩] k t
      = recognize cfg ⟨L2, R⟩ [⟨"Right", lms⟩] k t
    ∧ ((recognize cfg ⟨L, R⟩ [⟨"Right", lms⟩] k t).1).left = init_hand_state
    ∧ process_frame alpha ⟨f0 :: fs, off, cal⟩ [(label, lms2)]
        = (⟨some (if cal then addOffset off sm else sm)
              :: fs.map (fun _ => none), off, cal⟩,
           .ok [⟨if cal then addOffset off sm else sm, label, fts⟩]) := by
  have hreset : ∀ X : HandState,
      reset_absent ⟨X, R⟩ (List.map Obs.label [⟨"Right", lms⟩])
        = ⟨init_hand_state, R⟩ := by
    intro X
    simp [reset_absent]
  refine ⟨?_, ?_, ?_⟩
  · show recognize_hands cfg [⟨"Right", lms⟩]
        (reset_absent ⟨L, R⟩ (List.map Obs.label [⟨"Right", lms⟩])) k t = _
    rw [hreset, show recognize cfg ⟨L2, R⟩ [⟨"Right", lms⟩] k t
        = recognize_hands cfg [⟨"Right", lms⟩]
            (reset_absent ⟨L2, R⟩ (List.map Obs.label [⟨"Right", lms⟩])) k t
        from rfl, hreset]
  · show ((recognize_hands cfg [⟨"Right", lms⟩]
        (reset_absent ⟨L, R⟩ (List.map Obs.label [⟨"Right", lms⟩])) k t).1).left
        = init_hand_state
    rw [hreset]
    exact recognize_hands_keeps_left cfg [⟨"Right", lms⟩]
      (by intro h hm; simp at hm; rw [hm]; simp) ⟨init_hand_state, R⟩ k t
  · simp only [process_frame, process_hands, hupd, hft, process_hands_nil]

/-- Witness for the amended C2: a Right-only cycle from two different
previous Left states, and a single-observation frame through the
tracker with filter 0 holding `lmsConst 1`. -/
theorem c2_amended_slot_reset_witness :
    (MultiPointEMAFilter.update (3/10) (some (lmsConst 1)) (lmsConst 1)
        = .ok (lmsConst 1, some (lmsConst 1))
      ∧ get_all_fingertips (if false then addOffset (0, 0) (lmsConst 1)
          else lmsConst 1)
          = .ok ⟨(1, 1), (1, 1), (1, 1), (1, 1), (1, 1)⟩)
    ∧ recognize default_config ⟨stDwell.left, init_hand_state⟩
        [⟨"Right", lmsConst 0⟩] clkZero 0
      = recognize default_config ⟨init_hand_state, init_hand_state⟩
          [⟨"Right", lmsConst 0⟩] clkZero 0
    ∧ ((recognize default_config ⟨stDwell.left, init_hand_state⟩
        [⟨"Right", lmsConst 0⟩] clkZero 0).1).left = init_hand_state
    ∧ process_frame (3/10) ⟨some (lmsConst 1) :: [none], (0, 0), false⟩
        [("Right", lmsConst 1)]
        = (⟨some (if false then addOffset (0, 0) (lmsConst 1)
              else lmsConst 1)
              :: ([none] : List (Option (List Point))).map (fun _ => none),
            (0, 0), false⟩,
           .ok [⟨if false then addOffset (0, 0) (lmsConst 1)
              else lmsConst 1, "Right",
              ⟨(1, 1), (1, 1), (1, 1), (1, 1), (1, 1)⟩⟩]) :=
  ⟨⟨by with_unfolding_all decide, by with_unfolding_all decide⟩,
   (c2_amended_slot_reset default_config stDwell.left init_hand_state
      init_hand_state (lmsConst 0) (lmsConst 1) clkZero 0 (3/10) (0, 0)
      false "Right"
      (some (lmsConst 1)) [none] (lmsConst 1) (some (lmsConst 1))
      ⟨(1, 1), (1, 1), (1, 1), (1, 1), (1, 1)⟩
      (by with_unfolding_all decide) (by with_unfolding_all decide)).1,
   (c2_amended_slot_reset default_config stDwell.left init_hand_state
      init_hand_state (lmsConst 0) (lmsConst 1) clkZero 0 (3/10) (0, 0)
      false "Right"
      (some (lmsConst 1)) [none] (lmsConst 1) (some (lmsConst 1))
      ⟨(1, 1), (1, 1), (1, 1), (1, 1), (1, 1)⟩
      (by with_unfolding_all decide) (by with_unfolding_all decide)).2.1,
   (c2_amended_slot_reset default_config stDwell.left init_hand_state
      init_hand_state (lmsConst 0) (lmsConst 1) clkZero 0 (3/10) (0, 0)
      false "Right"
      (some (lmsConst 1)) [none] (lmsConst 1) (some (lmsConst 1))
      ⟨(1, 1), (1, 1), (1, 1), (1, 1), (1, 1)⟩
      (by with_unfolding_all decide) (by with_unfolding_all decide)).2.2⟩
